import Mathlib

set_option maxRecDepth 4000

/-!
Verification development for the PewpewLive dashboard core.

Shallow embedding of the TypeScript sources:
- the tips rule engine (src/electron/preload.ts, class TipsEngine),
- the objective timer model and snapshot aggregator (src/unnamed/part_001),
- the polling-interval IPC handler (src/unnamed/part_000).

Modelling conventions:
- JavaScript numbers are modelled as rationals (ℚ); Math.floor and
  Math.round are Int.floor and floor (x + 1/2).
- Optional / possibly-missing JS values are Option; JS falsiness of the
  empty string is modelled explicitly where the source uses the || operator.
- Date.now() is modelled as one wall-clock input (nowMs) per engine tick.
- A thrown JS exception is modelled as Option.none / an aborted fold,
  mirroring the single try/catch that wraps TipsEngine.tick.
-/

/-! ## Generic JS helpers -/

/-- Model of the JS expression a || b on strings: the empty string is falsy. -/
def jsOrS (a b : String) : String := if a = "" then b else a

/-- Model of chanField || defaultValue where the field is optional:
undefined and the empty string both fall back. -/
def jsOrOptS (a : Option String) (b : String) : String := jsOrS (a.getD "") b

/-- Model of Math.floor on a JS number. -/
def jsFloor (q : ℚ) : ℤ := ⌊q⌋

/-- Model of Math.round on a JS number (round half towards +∞). -/
def jsRound (q : ℚ) : ℤ := ⌊q + 1/2⌋

/-- Rendering of a JS number inside a template string.  Stands in for JS
number printing; injective on ℚ, and agrees with JS on integers (the only
values the repository feeds through it). -/
def jsNumToString (q : ℚ) : String :=
  if q.den = 1 then toString q.num else toString q.num ++ "/" ++ toString q.den

/-- Model of JS String.prototype.replace with a string pattern: replaces
only the first occurrence of the pattern. -/
def jsReplaceFirst (s pat repl : String) : String :=
  match s.splitOn pat with
  | [] => s
  | [_] => s
  | x :: y :: rest => x ++ repl ++ String.intercalate pat (y :: rest)

/-! ## Polling-interval handler (src/unnamed/part_000, lines 232-239)

The IPC handler setPollingInterval receives an arbitrary value ms.
Number(ms) yielding NaN (non-numeric input) is modelled as Option.none;
a numeric input is Option.some of its value. -/

/-- Model of the JS expression Number(ms) || 1000: NaN (none) and 0 both
yield 1000. -/
def jsNumberOr1000 (ms : Option ℚ) : ℚ :=
  match ms with
  | none => 1000
  | some q => if q = 0 then 1000 else q

/-- Model of: const clamped = Math.max(250, Math.min(10000, Number(ms) || 1000)). -/
def setPollingIntervalClamped (ms : Option ℚ) : ℚ :=
  max 250 (min 10000 (jsNumberOr1000 ms))

/-- Result object returned by the setPollingInterval IPC handler. -/
structure PollingResult where
  ok : Bool
  pollIntervalMs : ℚ
  deriving Repr, DecidableEq

/-- Model of the setPollingInterval handler: stores the clamped value in the
module-level pollIntervalMs variable and returns { ok: true, pollIntervalMs }
(read back after the assignment). Returns (new stored interval, reply). -/
def setPollingIntervalHandler (ms : Option ℚ) : ℚ × PollingResult :=
  let clamped := setPollingIntervalClamped ms
  (clamped, { ok := true, pollIntervalMs := clamped })

/-! ## Objective timer model (src/unnamed/part_001, lines 144-212) -/

/-- Model of a live-client event record, with the fields the aggregator
reads: EventName, EventTime, DragonType (present on dragon kills). -/
structure GameEvent where
  eventName : String
  eventTime : ℚ
  dragonType : Option String := none
  killerName : Option String := none
  deriving Repr, DecidableEq

/-- Model of secondsToClock: signed minutes:seconds with zero-padded
seconds, computed from Math.abs(Math.floor(s)). -/
def secondsToClock (s : ℚ) : String :=
  let sign := if s < 0 then "-" else ""
  let abs : ℕ := (jsFloor s).natAbs
  let m := toString (abs / 60)
  let secN := abs % 60
  let sec := if secN < 10 then "0" ++ toString secN else toString secN
  sign ++ m ++ ":" ++ sec

/-- Scan of the event log for the most recent event of one name
(last one in list order wins), mirroring the single for-loop in
computeObjectiveTimers. -/
def lastKillOf (name : String) (events : List GameEvent) : Option GameEvent :=
  events.foldl (fun acc ev => if ev.eventName = name then some ev else acc) none

/-- Dragon portion of the objective timers. -/
structure DragonTimer where
  nextSpawnTime : ℚ
  timeToSpawn : String
  lastKillType : Option String
  deriving Repr, DecidableEq

/-- Herald portion of the objective timers. -/
structure HeraldTimer where
  nextSpawnTime : ℚ
  timeToSpawn : String
  despawnsAt : ℚ
  despawnsIn : String
  deriving Repr, DecidableEq

/-- Baron portion of the objective timers. -/
structure BaronTimer where
  nextSpawnTime : ℚ
  timeToSpawn : String
  deriving Repr, DecidableEq

/-- Combined objective timers, the return value of computeObjectiveTimers. -/
structure ObjectiveTimers where
  dragon : DragonTimer
  herald : HeraldTimer
  baron : BaronTimer
  deriving Repr, DecidableEq

/-- Next dragon spawn: first-spawn 300 before 5:00, else last kill + 300,
else the (stale) first-spawn time. -/
def nextDragonAt (gameTimeSec : ℚ) (events : List GameEvent) : ℚ :=
  if gameTimeSec < 300 then 300
  else
    match lastKillOf "DragonKill" events with
    | some ev => ev.eventTime + 300
    | none => 300

/-- Next herald spawn: first-spawn 480 before 8:00, else
min(1200, last kill + 360 or 480). -/
def nextHeraldAt (gameTimeSec : ℚ) (events : List GameEvent) : ℚ :=
  if gameTimeSec < 480 then 480
  else
    min 1200
      (match lastKillOf "HeraldKill" events with
       | some ev => ev.eventTime + 360
       | none => 480)

/-- Next baron spawn: first-spawn 1200 before 20:00, else last kill + 360,
else the (stale) first-spawn time. -/
def nextBaronAt (gameTimeSec : ℚ) (events : List GameEvent) : ℚ :=
  if gameTimeSec < 1200 then 1200
  else
    match lastKillOf "BaronKill" events with
    | some ev => ev.eventTime + 360
    | none => 1200

/-- Model of computeObjectiveTimers (src/unnamed/part_001 lines 152-212). -/
def computeObjectiveTimers (gameTimeSec : ℚ) (events : List GameEvent) :
    ObjectiveTimers :=
  let nd := nextDragonAt gameTimeSec events
  let nh := nextHeraldAt gameTimeSec events
  let nb := nextBaronAt gameTimeSec events
  { dragon :=
      { nextSpawnTime := nd
        timeToSpawn := secondsToClock (nd - gameTimeSec)
        lastKillType := (lastKillOf "DragonKill" events).bind (·.dragonType) }
    herald :=
      { nextSpawnTime := nh
        timeToSpawn := secondsToClock (nh - gameTimeSec)
        despawnsAt := 1200
        despawnsIn := secondsToClock (1200 - gameTimeSec) }
    baron :=
      { nextSpawnTime := nb
        timeToSpawn := secondsToClock (nb - gameTimeSec) } }

/-! ## Tips engine data model (src/electron/preload.ts, lines 30-104) -/

/-- Severity union "info" | "warning" | "critical". -/
inductive Severity
  | info
  | warning
  | critical
  deriving Repr, DecidableEq

/-- Overlay notification channel (type TipChannelOverlay). -/
structure TipChannelOverlay where
  severity : Option Severity := none
  icon : Option String := none
  title : Option String := none
  body : Option String := none
  stickyMs : Option ℚ := none
  sound : Option String := none
  deriving Repr, DecidableEq

/-- Notification spec of a rule (type TipNotify). -/
structure TipNotify where
  channels : List TipChannelOverlay := []
  throttleSec : Option ℚ := none
  deriving Repr, DecidableEq

/-- Phase applicability window (type PhaseCondition). -/
structure PhaseCondition where
  maxGameTimeSec : Option ℚ := none
  minGameTimeSec : Option ℚ := none
  deriving Repr, DecidableEq

/-- Rule applicability condition (type RuleWhen). -/
structure RuleWhen where
  phase : Option PhaseCondition := none
  modes : Option (List String) := none
  deriving Repr, DecidableEq

/-- Closed set of recurring objectives an objective_spawn trigger can name. -/
inductive ObjectiveName
  | dragon
  | herald
  | baron
  deriving Repr, DecidableEq

/-- String form of an objective name, as interpolated into keys and
default templates. -/
def ObjectiveName.render : ObjectiveName → String
  | .dragon => "dragon"
  | .herald => "herald"
  | .baron => "baron"

/-- Lead time specification: number | number[]. -/
inductive LeadSpec
  | single (n : ℚ)
  | many (l : List ℚ)
  deriving Repr, DecidableEq

/-- Tagged trigger union (TriggerCannonWave | TriggerObjectiveSpawn). -/
inductive Trigger
  | cannonWave (leadSeconds : LeadSpec)
  | objectiveSpawn (objective : ObjectiveName) (leadSeconds : LeadSpec)
  deriving Repr, DecidableEq

/-- Declarative rule (type Rule).  The trigger is Option: YAML documents are
cast unchecked (parse(raw) as Partial), so a parsed rule may lack its
trigger; evaluating such a rule throws on rule.trigger.type.  The source
field named when is rendered whenCond here. -/
structure Rule where
  id : String
  name : String := ""
  whenCond : Option RuleWhen := none
  trigger : Option Trigger
  notify : Option TipNotify := none
  enabled : Option Bool := none
  deriving Repr, DecidableEq

/-- Module grouping rules (source type name Module; renamed because Mathlib
reserves Module). -/
structure TipsModule where
  id : String
  rules : List Rule
  enabled : Option Bool := none
  deriving Repr, DecidableEq

/-- Loaded configuration (type TipsConfigV1, version tag dropped). -/
structure TipsConfig where
  modules : List TipsModule
  deriving Repr, DecidableEq

/-- Snapshot shape consumed by the engine (type SnapshotLike), objectives
part. -/
structure ObjTimeLike where
  nextSpawnTime : Option ℚ := none
  deriving Repr, DecidableEq

/-- Snapshot shape consumed by the engine, game part. -/
structure SnapGame where
  time : Option ℚ := none
  mode : Option String := none
  deriving Repr, DecidableEq

/-- Snapshot shape consumed by the engine, objectives record. -/
structure SnapObjectives where
  dragon : Option ObjTimeLike := none
  herald : Option ObjTimeLike := none
  baron : Option ObjTimeLike := none
  deriving Repr, DecidableEq

/-- Snapshot shape consumed by the engine (type SnapshotLike). -/
structure SnapshotLike where
  game : Option SnapGame := none
  objectives : Option SnapObjectives := none
  deriving Repr, DecidableEq

/-- Payload metadata bag: the two record shapes built at emission. -/
inductive TipMetadata
  | cannonWave (lead : ℚ) (waveIndex : ℤ) (spawnTime : ℚ)
  | objectiveSpawn (lead : ℚ) (objective : ObjectiveName) (nextSpawnTime : ℚ)
  deriving Repr, DecidableEq

/-- Emitted notification payload (type TipPayload). -/
structure TipPayload where
  id : String
  title : String
  body : String
  icon : String
  severity : Severity
  stickyMs : ℚ
  metadata : TipMetadata
  deriving Repr, DecidableEq

/-! ## Tips engine helpers (src/electron/preload.ts, lines 125-171) -/

/-- Model of inPhase: true unless a present minGameTimeSec exceeds the game
time or a present maxGameTimeSec is below it. -/
def inPhase (w : Option RuleWhen) (gameTime : ℚ) : Bool :=
  match w.bind (·.phase) with
  | none => true
  | some ph =>
      let minBad := match ph.minGameTimeSec with
        | some m => decide (gameTime < m)
        | none => false
      let maxBad := match ph.maxGameTimeSec with
        | some m => decide (m < gameTime)
        | none => false
      !minBad && !maxBad

/-- Model of modeAllowed: a missing or empty modes list allows everything;
an empty observed mode (JS falsy) is rejected; otherwise membership. -/
def modeAllowed (w : Option RuleWhen) (mode : String) : Bool :=
  match w.bind (·.modes) with
  | none => true
  | some modes =>
      if modes.isEmpty then true
      else if mode = "" then false
      else modes.contains mode

/-- Model of getLeadList: an array is copied and sorted ascending, a single
number is wrapped.  The JS sort((a, b) => a - b) is a stable ascending
sort, rendered as insertion sort. -/
def getLeadList : LeadSpec → List ℚ
  | .single n => [n]
  | .many l => l.insertionSort (· ≤ ·)

/-- Integer range [lo, hi] as a list (empty when hi < lo). -/
def intRange (lo hi : ℤ) : List ℤ :=
  (List.range (hi + 1 - lo).toNat).map (fun n => lo + n)

/-- Model of getNextCannonWavesBefore20.  The source loop runs wave indices
i from currentWaveIndex+1, breaks once the spawn time 90+(i-1)*30 exceeds
1200 (that is, once i exceeds 38), keeps indices divisible by 3, and stops
after collecting 5 waves; rendered here as range / filter / take. -/
def getNextCannonWavesBefore20 (nowSec : ℚ) : List (ℤ × ℚ) :=
  let currentWaveIndex : ℤ :=
    if nowSec < 90 then 0 else jsFloor ((nowSec - 90) / 30) + 1
  (((intRange (currentWaveIndex + 1) 38).filter (fun i => i % 3 == 0)).take 5).map
    (fun i => (i, (90 : ℚ) + ((i : ℚ) - 1) * 30))

/-! ## Tips engine state and tick (src/electron/preload.ts, lines 173-350) -/

/-- Mutable engine state: clock baseline, fired-key set, throttle
timestamps.  The fired set is a list with membership semantics; the
timestamp map is an association list where Map.set prepends and lookup
reads the most recent binding. -/
structure EngineState where
  lastNow : ℚ := 0
  fired : List String := []
  lastFiredAtMs : List (String × ℚ) := []
  deriving Repr, DecidableEq

/-- Engine state at construction: lastNow = 0, no fired keys, no
timestamps. -/
def initialEngineState : EngineState := {}

/-- Lookup in the throttle-timestamp map (most recent binding wins). -/
def lookupMs (key : String) (m : List (String × ℚ)) : Option ℚ :=
  (m.find? (fun kv => kv.1 == key)).map (·.2)

/-- Model of this.lastFiredAtMs.set(key, v). -/
def setMs (key : String) (v : ℚ) (m : List (String × ℚ)) : List (String × ℚ) :=
  (key, v) :: m

/-- Model of Math.max(0, Math.floor((rule.notify?.throttleSec || 0) * 1000)). -/
def throttleMsOf (notify : Option TipNotify) : ℤ :=
  max 0 (jsFloor (((notify.bind (·.throttleSec)).getD 0) * 1000))

/-- Model of (rule.notify?.channels || []).find(c => c.type === "overlay"):
every channel of the model is an overlay channel, so the first one wins. -/
def overlayChan (notify : Option TipNotify) : Option TipChannelOverlay :=
  ((notify.map (·.channels)).getD []).head?

/-- Fired key for a cannon-wave occurrence: ruleId:lead:waveIndex. -/
def cannonKey (ruleId : String) (lead : ℚ) (waveIndex : ℤ) : String :=
  ruleId ++ ":" ++ jsNumToString lead ++ ":" ++ toString waveIndex

/-- Fired key for an objective-spawn occurrence:
ruleId:objective:lead:Math.round(next). -/
def objectiveKey (ruleId : String) (obj : ObjectiveName) (lead : ℚ) (next : ℚ) :
    String :=
  ruleId ++ ":" ++ obj.render ++ ":" ++ jsNumToString lead ++ ":" ++
    toString (jsRound next)

/-- Fired key reconstructed from an emitted payload; by construction it is
exactly the key under which the payload was recorded as fired. -/
def payloadKey (p : TipPayload) : String :=
  match p.metadata with
  | .cannonWave lead w _ => cannonKey p.id lead w
  | .objectiveSpawn lead obj next => objectiveKey p.id obj lead next

/-- Number of payloads in a list carrying a given fired key. -/
def countKey (k : String) (ps : List TipPayload) : ℕ :=
  (ps.filter (fun p => payloadKey p == k)).length

/-- Per-lead body of the cannon_wave branch of TipsEngine.tick (lines
247-288): window test, fired-set dedup, optional throttle, emission. -/
def cannonLeadStep (rule : Rule) (nowSec nowMs : ℚ) (wave : ℤ × ℚ) (lead : ℚ)
    (st : EngineState) : EngineState × List TipPayload :=
  let timeToSpawn := wave.2 - nowSec
  let key := cannonKey rule.id lead wave.1
  if (timeToSpawn ≤ lead ∧ lead - 21/10 < timeToSpawn) ∧ key ∉ st.fired then
    let chan := overlayChan rule.notify
    let titleTpl := jsOrOptS (chan.bind (·.title)) "Cannon wave in {lead}s"
    let bodyTpl := jsOrOptS (chan.bind (·.body)) "Prepare to secure the cannon minion."
    let payload : TipPayload :=
      { id := rule.id
        title := jsReplaceFirst titleTpl "{lead}" (jsNumToString lead)
        body := jsReplaceFirst bodyTpl "{lead}" (jsNumToString lead)
        icon := jsOrOptS (chan.bind (·.icon)) "🛡️"
        severity := (chan.bind (·.severity)).getD .info
        stickyMs := (chan.bind (·.stickyMs)).getD 4000
        metadata := .cannonWave lead wave.1 wave.2 }
    let throttleMs := throttleMsOf rule.notify
    if 0 < throttleMs then
      let prev := (lookupMs key st.lastFiredAtMs).getD 0
      if nowMs - prev < (throttleMs : ℚ) then (st, [])
      else
        ({ st with fired := key :: st.fired,
                   lastFiredAtMs := setMs key nowMs st.lastFiredAtMs }, [payload])
    else ({ st with fired := key :: st.fired }, [payload])
  else (st, [])

/-- Per-lead body of the objective_spawn branch of TipsEngine.tick (lines
301-343). -/
def objectiveLeadStep (rule : Rule) (obj : ObjectiveName) (next : ℚ)
    (nowSec nowMs : ℚ) (lead : ℚ) (st : EngineState) :
    EngineState × List TipPayload :=
  let timeToSpawn := next - nowSec
  let key := objectiveKey rule.id obj lead next
  if (timeToSpawn ≤ lead ∧ lead - 21/10 < timeToSpawn) ∧ key ∉ st.fired then
    let chan := overlayChan rule.notify
    let titleTpl := jsOrOptS (chan.bind (·.title))
      ("Prepare " ++ obj.render ++ " in {lead}s")
    let bodyTpl := jsOrOptS (chan.bind (·.body))
      ("Group and secure vision for " ++ obj.render ++ ".")
    let payload : TipPayload :=
      { id := rule.id
        title := jsReplaceFirst titleTpl "{lead}" (jsNumToString lead)
        body := jsReplaceFirst bodyTpl "{lead}" (jsNumToString lead)
        icon := jsOrOptS (chan.bind (·.icon)) "⚑"
        severity := (chan.bind (·.severity)).getD .warning
        stickyMs := (chan.bind (·.stickyMs)).getD 5000
        metadata := .objectiveSpawn lead obj next }
    let throttleMs := throttleMsOf rule.notify
    if 0 < throttleMs then
      let prev := (lookupMs key st.lastFiredAtMs).getD 0
      if nowMs - prev < (throttleMs : ℚ) then (st, [])
      else
        ({ st with fired := key :: st.fired,
                   lastFiredAtMs := setMs key nowMs st.lastFiredAtMs }, [payload])
    else ({ st with fired := key :: st.fired }, [payload])
  else (st, [])

/-- Sequencing of emitting steps over a list, threading the engine state
and concatenating emissions in order, as the nested for-loops do. -/
def foldEmit {α : Type} (f : α → EngineState → EngineState × List TipPayload) :
    List α → EngineState → EngineState × List TipPayload
  | [], st => (st, [])
  | x :: xs, st =>
      let r := f x st
      let r2 := foldEmit f xs r.1
      (r2.1, r.2 ++ r2.2)

/-- Model of snap.objectives lookup for one objective (safeObj). -/
def safeObj (snap : SnapshotLike) : ObjectiveName → Option ObjTimeLike
  | .dragon => snap.objectives.bind (·.dragon)
  | .herald => snap.objectives.bind (·.herald)
  | .baron => snap.objectives.bind (·.baron)

/-- Model of safeNext. -/
def safeNext (obj : Option ObjTimeLike) : Option ℚ :=
  obj.bind (·.nextSpawnTime)

/-- Evaluation of one rule within a tick.  Option.none models the JS
exception thrown when a rule passing the enabled/phase/mode gates has no
trigger object (rule.trigger.type dereferences undefined); that exception
propagates to the try/catch wrapping the whole tick. -/
def evalRule (rule : Rule) (snap : SnapshotLike) (nowSec : ℚ) (mode : String)
    (nowMs : ℚ) (st : EngineState) : Option (EngineState × List TipPayload) :=
  if rule.enabled = some false then some (st, [])
  else if !(inPhase rule.whenCond nowSec) then some (st, [])
  else if !(modeAllowed rule.whenCond mode) then some (st, [])
  else
    match rule.trigger with
    | none => none
    | some (.cannonWave leadSpec) =>
        if 1200 ≤ nowSec then some (st, [])
        else
          let leads := getLeadList leadSpec
          let upcoming := getNextCannonWavesBefore20 nowSec
          some (foldEmit
            (fun wave st1 => foldEmit (cannonLeadStep rule nowSec nowMs wave) leads st1)
            upcoming st)
    | some (.objectiveSpawn obj leadSpec) =>
        match safeNext (safeObj snap obj) with
        | none => some (st, [])
        | some next =>
            if next ≤ 0 then some (st, [])
            else if next - nowSec ≤ 0 then some (st, [])
            else some (foldEmit (objectiveLeadStep rule obj next nowSec nowMs)
              (getLeadList leadSpec) st)

/-- Result of processing a list of rules or modules: final state, emissions
in order, and whether processing ran to completion (false = a rule threw
and the rest of the tick was abandoned). -/
structure StepResult where
  state : EngineState
  emits : List TipPayload
  ok : Bool
  deriving Repr

/-- Sequential evaluation of a module's rules; a throw abandons the rest. -/
def evalRulesList (snap : SnapshotLike) (nowSec : ℚ) (mode : String) (nowMs : ℚ) :
    List Rule → EngineState → StepResult
  | [], st => ⟨st, [], true⟩
  | r :: rs, st =>
      match evalRule r snap nowSec mode nowMs st with
      | none => ⟨st, [], false⟩
      | some (st1, em1) =>
          let res := evalRulesList snap nowSec mode nowMs rs st1
          ⟨res.state, em1 ++ res.emits, res.ok⟩

/-- Sequential evaluation of the configured modules; a disabled module is
skipped; a throw inside a module abandons the remaining modules too. -/
def evalModulesList (snap : SnapshotLike) (nowSec : ℚ) (mode : String) (nowMs : ℚ) :
    List TipsModule → EngineState → StepResult
  | [], st => ⟨st, [], true⟩
  | m :: ms, st =>
      if m.enabled = some false then
        evalModulesList snap nowSec mode nowMs ms st
      else
        let r1 := evalRulesList snap nowSec mode nowMs m.rules st
        if r1.ok then
          let res := evalModulesList snap nowSec mode nowMs ms r1.state
          ⟨res.state, r1.emits ++ res.emits, res.ok⟩
        else r1

/-- Game clock as observed by a tick: snap.game?.time ?? 0. -/
def observedClock (snap : SnapshotLike) : ℚ :=
  (snap.game.bind (·.time)).getD 0

/-- Game mode as observed by a tick: snap.game?.mode ?? "". -/
def observedMode (snap : SnapshotLike) : String :=
  (snap.game.bind (·.mode)).getD ""

/-- Clock-regression handling at the top of tick: if the observed clock is
below the previous tick's clock, the fired set (and only it) is cleared. -/
def applyClockRegression (nowSec : ℚ) (st : EngineState) : EngineState :=
  if nowSec < st.lastNow then { st with fired := [] } else st

/-- Model of one TipsEngine.tick: observe the clock and mode, handle clock
regression, update the baseline, evaluate all modules; the surrounding
try/catch swallows an abort, keeping state mutations made before it. -/
def tick (cfg : TipsConfig) (snap : SnapshotLike) (nowMs : ℚ) (st : EngineState) :
    EngineState × List TipPayload :=
  let nowSec := observedClock snap
  let mode := observedMode snap
  let st1 := applyClockRegression nowSec st
  let st2 := { st1 with lastNow := nowSec }
  let res := evalModulesList snap nowSec mode nowMs cfg.modules st2
  (res.state, res.emits)

/-- Input of one tick: the snapshot the engine fetches and the wall clock
(Date.now()) during that tick. -/
structure TickInput where
  snap : SnapshotLike
  nowMs : ℚ
  deriving Repr

/-- Run of a sequence of ticks, concatenating all emissions. -/
def runTicks (cfg : TipsConfig) : List TickInput → EngineState → EngineState × List TipPayload
  | [], st => (st, [])
  | i :: is, st =>
      let r := tick cfg i.snap i.nowMs st
      let r2 := runTicks cfg is r.1
      (r2.1, r.2 ++ r2.2)

/-- Boolean chain condition: starting from baseline c, the observed clocks
of the tick inputs never decrease. -/
def clocksMonoFrom (c : ℚ) : List TickInput → Bool
  | [] => true
  | i :: is => decide (c ≤ observedClock i.snap) && clocksMonoFrom (observedClock i.snap) is

/-- Boolean condition: the observed clocks of the tick inputs never
decrease along the sequence. -/
def clocksMono : List TickInput → Bool
  | [] => true
  | i :: is => clocksMonoFrom (observedClock i.snap) is

/-! ## Engine invariants: fired-set monotonicity and at-most-once emission -/

/-- Relation between a pre-state, a post-state and the emissions produced
between them: the clock baseline is untouched, fired keys are preserved and
never re-emitted, every key is emitted at most once, and an emitted key is
recorded as fired. -/
def GoodRel (st st2 : EngineState) (em : List TipPayload) : Prop :=
  st2.lastNow = st.lastNow ∧
  (∀ k, k ∈ st.fired → k ∈ st2.fired ∧ countKey k em = 0) ∧
  (∀ k, countKey k em ≤ 1) ∧
  (∀ k, 1 ≤ countKey k em → k ∈ st2.fired)

/-! ## Concrete instances for the engine claims -/

/-- Snapshot with a given game clock in CLASSIC mode (no objectives). -/
def gameSnap (t : ℚ) : SnapshotLike :=
  { game := some { time := some t, mode := some "CLASSIC" } }

/-- Cannon-wave rule with a single 30 second lead and no channel overrides. -/
def c1Rule : Rule :=
  { id := "cannon_prep", trigger := some (.cannonWave (.single 30)) }

/-- Configuration holding only c1Rule. -/
def c1Cfg : TipsConfig := ⟨[⟨"waves", [c1Rule], none⟩]⟩

/-- Monotone clock series 119, 120.5, 122 crossing the 30 second window of
cannon wave 3 (spawn at 150, window [120, 122.1)) exactly once; the middle
and last ticks both fall inside the window. -/
def c1Inputs : List TickInput :=
  [⟨gameSnap 119, 1000⟩, ⟨gameSnap (241/2), 2000⟩, ⟨gameSnap 122, 3000⟩]

/-- Fired key of wave 3 with lead 30 for c1Rule. -/
def c1Key : String := cannonKey "cannon_prep" 30 3

/-- Cannon-wave rule with a 10 second throttle. -/
def c8Rule : Rule :=
  { id := "cw"
    trigger := some (.cannonWave (.single 30))
    notify := some { channels := [], throttleSec := some 10 } }

/-- Configuration holding only c8Rule. -/
def c8Cfg : TipsConfig := ⟨[⟨"waves", [c8Rule], none⟩]⟩

/-- Two would-be firings of the key cw:30:3, 5 wall-clock seconds apart:
first at game time 121 (fires), then after a clock regression to game time
120 (the fired set clears, the key window is open again, but the throttle
suppresses the second firing). -/
def c8Inputs : List TickInput :=
  [⟨gameSnap 121, 1000000⟩, ⟨gameSnap 120, 1005000⟩]

/-- Engine state holding a fresh throttle timestamp for cw:30:3. -/
def c8WitState : EngineState :=
  { lastNow := 0, fired := [], lastFiredAtMs := [("cw:30:3", 500)] }

/-- Engine state with a fired key and a throttle timestamp, used to witness
the clock-regression reset. -/
def c4State : EngineState :=
  { lastNow := 10, fired := ["k"], lastFiredAtMs := [("k", 7)] }

/-- Snapshot observing clock 12 (no regression against c4State). -/
def c4Snap : SnapshotLike := { game := some { time := some 12 } }

/-- Rule missing its trigger: evaluating it throws on rule.trigger.type. -/
def c3BadRule : Rule := { id := "broken", trigger := none }

/-- Well-formed cannon rule placed after the broken one. -/
def c3GoodRule : Rule := { id := "cw2", trigger := some (.cannonWave (.single 30)) }

/-- Configuration where the broken rule precedes the good one. -/
def c3CfgBoth : TipsConfig := ⟨[⟨"m", [c3BadRule, c3GoodRule], none⟩]⟩

/-- Configuration holding only the good rule. -/
def c3CfgGood : TipsConfig := ⟨[⟨"m", [c3GoodRule], none⟩]⟩

/-! ## Objective timer lemmas (claim C7) -/

/-- Plausibility of an event log: each recorded objective kill happens no
earlier than that objective's first spawn (true of any real game, where an
objective cannot die before it exists). -/
def PlausibleLog (events : List GameEvent) : Prop :=
  ∀ ev ∈ events,
    (ev.eventName = "DragonKill" → 300 ≤ ev.eventTime) ∧
    (ev.eventName = "HeraldKill" → 480 ≤ ev.eventTime) ∧
    (ev.eventName = "BaronKill" → 1200 ≤ ev.eventTime)

/-! ## Claim C5 -/

/-- Event log with one dragon kill at 900 (15:00). -/
def c5Events : List GameEvent := [⟨"DragonKill", 900, some "Earth", none⟩]

/-- The dragon_prep_30 rule as shipped in the repository's example YAML
(README section "Editing tips"): objective_spawn dragon, leadSeconds 30,
overlay channel titled "Dragon in {lead}s". -/
def c5DragonRule : Rule :=
  { id := "dragon_prep_30"
    name := "Dragon in 30s"
    trigger := some (.objectiveSpawn .dragon (.single 30))
    notify := some { channels :=
      [{ icon := some "🐉", title := some "Dragon in {lead}s",
         body := some "Group and secure vision.", severity := some .warning }] } }

/-- Configuration holding only dragon_prep_30. -/
def c5Cfg : TipsConfig := ⟨[⟨"objectives", [c5DragonRule], none⟩]⟩

/-- Snapshot at game time t whose dragon objective timer is the one
computed by the aggregator's timer model from the c5Events log. -/
def c5Snap (t : ℚ) : SnapshotLike :=
  { game := some { time := some t, mode := some "CLASSIC" }
    objectives := some
      { dragon :=
          some { nextSpawnTime :=
                   some ((computeObjectiveTimers t c5Events).dragon.nextSpawnTime) } } }

/-- Two engine ticks at game times 1170 and 1185. -/
def c5Inputs : List TickInput := [⟨c5Snap 1170, 0⟩, ⟨c5Snap 1185, 1000⟩]

/-! ## Identity resolver (src/unnamed/part_001, lines 234-328) -/

/-- Roster entry from /liveclientdata/playerlist: identity fields plus the
display fields the aggregator reads. -/
structure RosterEntry where
  riotId : Option String := none
  riotIdGameName : Option String := none
  riotIdTagLine : Option String := none
  summonerName : Option String := none
  team : Option String := none
  championName : Option String := none
  level : Option ℚ := none
  deriving Repr, DecidableEq

/-- Active identity from /liveclientdata/activeplayername: a legacy string
or a structured record. -/
inductive ActivePlayerName
  | str (s : String)
  | obj (riotId riotIdGameName riotIdTagLine : Option String)
  deriving Repr, DecidableEq

/-- First segment of s.split("#"). -/
def hashPart0 (s : String) : String := (s.splitOn "#").getD 0 ""

/-- Second segment of s.split("#"). -/
def hashPart1 (s : String) : String := (s.splitOn "#").getD 1 ""

/-- Model of apString: the active identity when it is a legacy string. -/
def apString : ActivePlayerName → String
  | .str s => s
  | .obj _ _ _ => ""

/-- Model of apRiotIdFromString: the active string when it contains '#'. -/
def apRiotIdFromString (ap : ActivePlayerName) : String :=
  if (apString ap).contains '#' then apString ap else ""

/-- Model of apGameNameFromString. -/
def apGameNameFromString (ap : ActivePlayerName) : String :=
  if apRiotIdFromString ap ≠ "" then hashPart0 (apRiotIdFromString ap)
  else apString ap

/-- Model of apTagFromString. -/
def apTagFromString (ap : ActivePlayerName) : String :=
  if apRiotIdFromString ap ≠ "" then hashPart1 (apRiotIdFromString ap) else ""

/-- Structured riotIdGameName field of the active identity (empty when the
identity is a string, making the JS conjunct falsy). -/
def apObjGameName : ActivePlayerName → String
  | .str _ => ""
  | .obj _ g _ => g.getD ""

/-- Structured riotIdTagLine field of the active identity. -/
def apObjTagLine : ActivePlayerName → String
  | .str _ => ""
  | .obj _ _ t => t.getD ""

/-- Structured riotId field of the active identity. -/
def apObjRiotId : ActivePlayerName → String
  | .str _ => ""
  | .obj r _ _ => r.getD ""

/-- Model of apGameName = (!apIsString && ap?.riotIdGameName) ||
apGameNameFromString || "". -/
def apGameName (ap : ActivePlayerName) : String :=
  jsOrS (apObjGameName ap) (jsOrS (apGameNameFromString ap) "")

/-- Model of apTagLine. -/
def apTagLine (ap : ActivePlayerName) : String :=
  jsOrS (apObjTagLine ap) (jsOrS (apTagFromString ap) "")

/-- Model of apFullRiotId = (!apIsString && ap?.riotId) ||
(apGameName && apTagLine ? gameName#tagLine : ""). -/
def apFullRiotId (ap : ActivePlayerName) : String :=
  jsOrS (apObjRiotId ap)
    (if apGameName ap ≠ "" ∧ apTagLine ap ≠ "" then
       apGameName ap ++ "#" ++ apTagLine ap
     else "")

/-- Model of normalizeIdString: trim then lowercase. -/
def normalizeIdString (s : String) : String := s.trim.toLower

/-- normalizeIdString applied to a possibly-missing field ((s || "")). -/
def normOpt (s : Option String) : String := normalizeIdString (s.getD "")

/-- Composite part of buildFullRiotId after the explicit-riotId shortcut:
gameName#tagLine when both present (truthy), else the legacy name. -/
def buildFullRiotIdRest (p : RosterEntry) : String :=
  if (p.riotIdGameName.getD "") ≠ "" ∧ (p.riotIdTagLine.getD "") ≠ "" then
    p.riotIdGameName.getD "" ++ "#" ++ p.riotIdTagLine.getD ""
  else p.summonerName.getD ""

/-- Model of buildFullRiotId: an explicit riotId containing '#' wins, then
the name#tag composite, then the legacy summoner name. -/
def buildFullRiotId (p : RosterEntry) : String :=
  match p.riotId with
  | some r => if r.contains '#' then r else buildFullRiotIdRest p
  | none => buildFullRiotIdRest p

/-- Tier 1: composite full-identity match (case-insensitive, trimmed);
this is the only tier whose match breaks out of the roster loop. -/
def tier1Match (ap : ActivePlayerName) (p : RosterEntry) : Bool :=
  (apFullRiotId ap != "") &&
    (normalizeIdString (buildFullRiotId p) == normalizeIdString (apFullRiotId ap))

/-- Tier 2: structured name+tag match. -/
def tier2Match (ap : ActivePlayerName) (p : RosterEntry) : Bool :=
  (apGameName ap != "") && (apTagLine ap != "") &&
    (normOpt p.riotIdGameName == normalizeIdString (apGameName ap)) &&
    (normOpt p.riotIdTagLine == normalizeIdString (apTagLine ap))

/-- Tier 3: name-only match. -/
def tier3Match (ap : ActivePlayerName) (p : RosterEntry) : Bool :=
  (apGameName ap != "") &&
    (normOpt p.riotIdGameName == normalizeIdString (apGameName ap))

/-- Tier 4: legacy bare-name match, only when the active identity string
carries no composite separator. -/
def tier4Match (ap : ActivePlayerName) (p : RosterEntry) : Bool :=
  (apString ap != "") && (apRiotIdFromString ap == "") &&
    (normOpt p.summonerName == normalizeIdString (apString ap))

/-- Disjunction of the three non-breaking tiers. -/
def tier234Match (ap : ActivePlayerName) (p : RosterEntry) : Bool :=
  tier2Match ap p || tier3Match ap p || tier4Match ap p

/-- Model of the roster loop of getAggregatedSnapshot (lines 271-309):
a tier-1 match returns immediately (break); tiers 2-4 only assign when no
entry has been assigned yet, and the loop keeps scanning. -/
def resolveMeLoop (ap : ActivePlayerName) :
    List RosterEntry → Option RosterEntry → Option RosterEntry
  | [], me => me
  | p :: ps, me =>
      if tier1Match ap p then some p
      else
        let me1 := if me.isNone && tier2Match ap p then some p else me
        let me2 := if me1.isNone && tier3Match ap p then some p else me1
        let me3 := if me2.isNone && tier4Match ap p then some p else me2
        resolveMeLoop ap ps me3

/-- Model of identity resolution: run the loop, then fall back to the
first roster entry. -/
def resolveMe (ap : ActivePlayerName) (players : List RosterEntry) :
    Option RosterEntry :=
  match resolveMeLoop ap players none with
  | some m => some m
  | none => players.head?

/-! ## Claim C2 -/

/-- Active identity whose explicit composite riotId diverges from its
name#tag composite. -/
def c2Ap : ActivePlayerName := .obj (some "weird#9") (some "alice") (some "tag")

/-- Name-only match: same game name, different tag. -/
def c2NameOnly : RosterEntry :=
  { riotIdGameName := some "alice", riotIdTagLine := some "zzz" }

/-- Structured name+tag match (matches tier 2, but not tier 1 since its
composite is the name#tag "alice#tag" while the active composite is
"weird#9"). -/
def c2NameTag : RosterEntry :=
  { riotIdGameName := some "alice", riotIdTagLine := some "tag" }

/-- Legacy bare-name entry. -/
def c2Legacy : RosterEntry := { summonerName := some "alice" }

/-! ## Equipment normalization (src/unnamed/part_001, lines 599-620) -/

/-- Item entry from /liveclientdata/playeritems: slot (none models a
non-number slot), displayName, itemID. -/
structure ItemEntry where
  slot : Option ℤ := none
  displayName : Option String := none
  itemID : Option ℤ := none
  deriving Repr, DecidableEq

/-- Model of (item.slot || 0), the sort key. -/
def itemSlotOrZero (e : ItemEntry) : ℤ := e.slot.getD 0

/-- Model of [...myItems].sort((a, b) => (a.slot || 0) - (b.slot || 0)):
a stable ascending sort by slot, rendered as insertion sort. -/
def sortItemsBySlot (l : List ItemEntry) : List ItemEntry :=
  l.insertionSort (fun a b => itemSlotOrZero a ≤ itemSlotOrZero b)

/-- Assignment of one entry into the 7-slot array: a numeric slot in 0..6
with a truthy displayName writes it at that index, anything else is
dropped. -/
def itemAssignStep (acc : List (Option String)) (item : ItemEntry) :
    List (Option String) :=
  match item.slot with
  | some s =>
      if 0 ≤ s ∧ s ≤ 6 ∧ (item.displayName.getD "") ≠ "" then
        acc.set s.toNat (some (item.displayName.getD ""))
      else acc
  | none => acc

/-- Model of the items IIFE of getAggregatedSnapshot: start from 7 nulls;
when the fetched value is an array, sort it by slot and assign each entry;
otherwise keep the 7 nulls. -/
def buildItemsBySlot (myItems : Option (List ItemEntry)) : List (Option String) :=
  match myItems with
  | some l => (sortItemsBySlot l).foldl itemAssignStep (List.replicate 7 none)
  | none => List.replicate 7 none

/-- Validity of an entry for position j: its slot is the number j (with
j in 0..6) and its displayName is truthy. -/
def ValidAt (e : ItemEntry) (j : ℕ) : Prop :=
  e.slot = some (j : ℤ) ∧ j ≤ 6 ∧ (e.displayName.getD "") ≠ ""

/-! ## Claim C6 -/

/-- Two entries sharing slot 0. -/
def c6Dup : List ItemEntry :=
  [{ slot := some 0, displayName := some "A" },
   { slot := some 0, displayName := some "B" }]

/-! ## Snapshot aggregator (src/unnamed/part_001, getAggregatedSnapshot)

The network layer is abstracted as fetch oracles: each identity-keyed
endpoint is a function from a candidate identity string to an optional
result (none = that candidate failed); plain endpoints are optional
values.  The four core fetches (gamestats, eventdata, activeplayername,
playerlist) appear as plain inputs because a failure of any of them
rejects the whole Promise.all and the snapshot of this cycle is never
built (the caller substitutes an error-flagged value instead). -/

/-- Subset of /liveclientdata/gamestats read by the aggregator. -/
structure GameStats where
  gameMode : String := ""
  gameTime : ℚ := 0
  deriving Repr, DecidableEq

/-- Scores record from /liveclientdata/playerscores. -/
structure Scores where
  kills : Option ℚ := none
  deaths : Option ℚ := none
  assists : Option ℚ := none
  creepScore : Option ℚ := none
  wardScore : Option ℚ := none
  deriving Repr, DecidableEq

/-- One rune descriptor (id and display name). -/
structure RuneDesc where
  id : Option ℤ := none
  displayName : Option String := none
  deriving Repr, DecidableEq

/-- Runes record from /liveclientdata/playermainrunes. -/
structure Runes where
  keystone : Option RuneDesc := none
  primaryRuneTree : Option RuneDesc := none
  secondaryRuneTree : Option RuneDesc := none
  deriving Repr, DecidableEq

/-- One summoner spell descriptor. -/
structure SpellDesc where
  displayName : Option String := none
  deriving Repr, DecidableEq

/-- Spells record from /liveclientdata/playersummonerspells. -/
structure Spells where
  summonerSpellOne : Option SpellDesc := none
  summonerSpellTwo : Option SpellDesc := none
  deriving Repr, DecidableEq

/-- One ability descriptor. -/
structure AbilityDesc where
  displayName : Option String := none
  deriving Repr, DecidableEq

/-- Abilities record from /liveclientdata/activeplayerabilities
(fields Q, W, E, R). -/
structure Abilities where
  q : Option AbilityDesc := none
  w : Option AbilityDesc := none
  e : Option AbilityDesc := none
  r : Option AbilityDesc := none
  deriving Repr, DecidableEq

/-- Shape of a successful playeritems response: the API normally returns
the array directly, sometimes wrapped in a data field; anything else is
coerced to the empty list. -/
inductive ItemsFetchResult
  | arr (l : List ItemEntry)
  | wrapped (l : List ItemEntry)
  | other
  deriving Repr, DecidableEq

/-- Model of the items coercion: let items = res.data; unwrap a wrapped
array; any non-array (including null from total fetch failure) becomes []. -/
def normalizeItems : Option ItemsFetchResult → List ItemEntry
  | none => []
  | some (.arr l) => l
  | some (.wrapped l) => l
  | some .other => []

/-- Model of fetchWithRiotIdFallback: try candidates in order, accept the
first success, report which candidate worked. -/
def fetchWithRiotIdFallback {α : Type} (fetch : String → Option α) :
    List String → Option α × Option String
  | [] => (none, none)
  | id :: rest =>
      match fetch id with
      | some d => (some d, some id)
      | none => fetchWithRiotIdFallback fetch rest

/-- Model of Array.from(new Set(list)): de-duplication preserving first
occurrence. -/
def dedupKeepFirst (l : List String) : List String :=
  l.foldl (fun acc s => if s ∈ acc then acc else acc ++ [s]) []

/-- buildFullRiotId through an optional entry (p—the JS optional chaining
yields "" when me is null). -/
def buildFullRiotIdOpt : Option RosterEntry → String
  | some p => buildFullRiotId p
  | none => ""

/-- Model of the riotIdCandidates construction: six identity forms,
filtered of falsy entries, trimmed, de-duplicated preserving order. -/
def riotIdCandidates (ap : ActivePlayerName) (me : Option RosterEntry) :
    List String :=
  let meGn := (me.bind (·.riotIdGameName)).getD ""
  let meTl := (me.bind (·.riotIdTagLine)).getD ""
  let meSn := (me.bind (·.summonerName)).getD ""
  dedupKeepFirst
    ((([apFullRiotId ap,
        buildFullRiotIdOpt me,
        if meGn ≠ "" ∧ meTl ≠ "" then meGn ++ "#" ++ meTl else "",
        meGn,
        meSn,
        apString ap].filter (fun s => s ≠ "")).map (fun s => s.trim)))

/-- Model of resolveGameModeName: empty mode passes through as "", a mapped
description wins, otherwise the mode itself. -/
def resolveGameModeName (gameModeMap : String → Option String)
    (mode : String) : String :=
  if mode = "" then "" else jsOrS ((gameModeMap mode).getD "") mode

/-- Team aggregates tallied from the event log. -/
structure TeamTally where
  teamKills : ℕ := 0
  enemyKills : ℕ := 0
  myTurrets : ℕ := 0
  enemyTurrets : ℕ := 0
  myInhibs : ℕ := 0
  enemyInhibs : ℕ := 0
  deriving Repr, DecidableEq

/-- Model of the name→team map built from the roster: entries keyed by
riotIdGameName and summonerName, later players overwriting earlier ones. -/
def nameToTeam (players : List RosterEntry) : String → Option String :=
  players.foldl
    (fun acc p =>
      let acc1 := if (p.riotIdGameName.getD "") ≠ ""
        then fun x => if x = p.riotIdGameName.getD "" then some (p.team.getD "") else acc x
        else acc
      if (p.summonerName.getD "") ≠ ""
        then fun x => if x = p.summonerName.getD "" then some (p.team.getD "") else acc1 x
        else acc1)
    (fun _ => none)

/-- Killer team resolution: nameToTeam.get(killerName) || "" behind the
truthiness guard on the killer name. -/
def killerTeamOf (n2t : String → Option String) (killerName : Option String) :
    String :=
  match killerName with
  | some kn => if kn ≠ "" then (n2t kn).getD "" else ""
  | none => ""

/-- One step of the event tally loop: champion kills are credited only
when a killer name is present; structure kills attribute by killer name
when present, otherwise they stay uncredited. -/
def tallyStep (n2t : String → Option String) (myTeam : String)
    (enemy : Option String) (acc : TeamTally) (ev : GameEvent) : TeamTally :=
  let isEnemy : String → Bool := fun kt =>
    match enemy with
    | some e => kt == e
    | none => false
  let acc :=
    if ev.eventName = "ChampionKill" ∧ (ev.killerName.getD "") ≠ "" then
      let kt := killerTeamOf n2t ev.killerName
      if kt = myTeam then { acc with teamKills := acc.teamKills + 1 }
      else if isEnemy kt then { acc with enemyKills := acc.enemyKills + 1 }
      else acc
    else acc
  let acc :=
    if ev.eventName = "TurretKilled" then
      let kt := killerTeamOf n2t ev.killerName
      if kt = myTeam then { acc with myTurrets := acc.myTurrets + 1 }
      else if isEnemy kt then { acc with enemyTurrets := acc.enemyTurrets + 1 }
      else acc
    else acc
  if ev.eventName = "InhibKilled" then
    let kt := killerTeamOf n2t ev.killerName
    if kt = myTeam then { acc with myInhibs := acc.myInhibs + 1 }
    else if isEnemy kt then { acc with enemyInhibs := acc.enemyInhibs + 1 }
    else acc
  else acc

/-- Model of JS Number(x.toFixed(2)) on a non-negative rational. -/
def jsToFixed2 (q : ℚ) : ℚ := ((jsRound (q * 100) : ℚ)) / 100

/-- Data Dragon CDN base (src/src/datadragon.ts). -/
def CDN_BASE : String := "https://ddragon.leagueoflegends.com"

/-- Model of buildChampionSquareUrl. -/
def buildChampionSquareUrl (version championId : String) : String :=
  CDN_BASE ++ "/cdn/" ++ version ++ "/img/champion/" ++ championId ++ ".png"

/-- Model of buildItemIconUrl. -/
def buildItemIconUrl (version : String) (itemId : ℤ) : String :=
  CDN_BASE ++ "/cdn/" ++ version ++ "/img/item/" ++ toString itemId ++ ".png"

/-- Model of buildRuneIconUrl (no version segment). -/
def buildRuneIconUrl (iconPath : String) : String :=
  CDN_BASE ++ "/cdn/img/" ++ iconPath

/-- Model of championName.replace(/\s|[^A-Za-z]/g, ""): keep letters only. -/
def stripNonAlpha (s : String) : String :=
  String.mk (s.toList.filter
    (fun c => decide (('A' ≤ c ∧ c ≤ 'Z') ∨ ('a' ≤ c ∧ c ≤ 'z'))))

/-- Assignment of one item icon URL into the 7-slot array: numeric slot in
0..6 with a truthy (non-zero) itemID. -/
def itemIconAssignStep (version : String) (acc : List (Option String))
    (item : ItemEntry) : List (Option String) :=
  match item.slot with
  | some s =>
      if 0 ≤ s ∧ s ≤ 6 ∧ item.itemID.getD 0 ≠ 0 then
        acc.set s.toNat (some (buildItemIconUrl version (item.itemID.getD 0)))
      else acc
  | none => acc

/-- Rune icon resolution: a truthy (non-zero) rune id looked up in the
rune index; a truthy icon path becomes a URL. -/
def runeIconOf (runeIndex : ℤ → Option String) (rd : Option RuneDesc) :
    Option String :=
  let icon : Option String :=
    match rd.bind (·.id) with
    | some i => if i ≠ 0 then runeIndex i else none
    | none => none
  match icon with
  | some ic => if ic ≠ "" then some (buildRuneIconUrl ic) else none
  | none => none

/-- Rune icon URLs of the assets block. -/
structure RuneIcons where
  keystone : Option String := none
  primaryTree : Option String := none
  secondaryTree : Option String := none
  deriving Repr, DecidableEq

/-- Assets block of the snapshot. -/
structure AssetsInfo where
  version : String
  championIconUrl : Option String
  itemIconUrls : List (Option String)
  runeIcons : RuneIcons
  deriving Repr, DecidableEq

/-- Game block of the snapshot. -/
structure GameInfo where
  mode : String
  modeName : String
  time : ℚ
  deriving Repr, DecidableEq

/-- Player block of the snapshot. -/
structure PlayerInfo where
  name : String
  riotId : Option String
  champion : String
  team : String
  level : ℚ
  deriving Repr, DecidableEq

/-- Runes block of the snapshot (display names). -/
structure RunesInfo where
  keystone : String
  primaryTree : String
  secondaryTree : String
  deriving Repr, DecidableEq

/-- Stats block of the snapshot. -/
structure StatsInfo where
  kills : ℚ
  deaths : ℚ
  assists : ℚ
  cs : ℚ
  vision : ℚ
  deriving Repr, DecidableEq

/-- Derived per-minute metrics block. -/
structure DerivedInfo where
  kda : String
  csPerMin : ℚ
  visionPerMin : ℚ
  deriving Repr, DecidableEq

/-- Team block of the snapshot. -/
structure TeamInfo where
  myTeam : String
  enemyTeam : Option String
  kills : ℕ
  enemyKills : ℕ
  turrets : ℕ × ℕ
  inhibs : ℕ × ℕ
  deriving Repr, DecidableEq

/-- Spells block of the snapshot. -/
structure SpellsInfo where
  d : String
  f : String
  deriving Repr, DecidableEq

/-- Abilities block of the snapshot (name of each present ability). -/
structure AbilitiesInfo where
  q : Option String
  w : Option String
  e : Option String
  r : Option String
  deriving Repr, DecidableEq

/-- Model of the AggregatedSnapshot interface. -/
structure AggregatedSnapshot where
  error : Bool
  message : Option String
  game : GameInfo
  player : PlayerInfo
  runes : RunesInfo
  stats : StatsInfo
  derived : DerivedInfo
  team : TeamInfo
  items : List (Option String)
  spells : SpellsInfo
  abilities : AbilitiesInfo
  objectives : ObjectiveTimers
  assets : Option AssetsInfo
  raw : GameStats × List GameEvent
  deriving Repr, DecidableEq

/-- All fetched inputs of one aggregation cycle. -/
structure FetchInputs where
  gameStats : GameStats
  events : List GameEvent
  activePlayerName : ActivePlayerName
  playersRaw : Option (List RosterEntry)
  scoresFetch : String → Option Scores
  itemsFetch : String → Option ItemsFetchResult
  spellsFetch : String → Option Spells
  runesFetch : String → Option Runes
  abilitiesFetch : Option Abilities
  versionFetch : Option String
  champIndexFetch : String → Option String
  runeIndexFetch : ℤ → Option String
  gameModeMap : String → Option String

/-- Model of getAggregatedSnapshot over its fetched inputs.

Note on player.riotId: the source attaches __usedId to the wrapper object
returned by fetchWithRiotIdFallback but each async lambda returns only
res.data, so the later reads rItems.__usedId / rScores.__usedId /
rSpells.__usedId all see undefined and resolvedRiotId is always null. -/
def getAggregatedSnapshot (inp : FetchInputs) : AggregatedSnapshot :=
  let players : List RosterEntry := inp.playersRaw.getD []
  let ap := inp.activePlayerName
  let me : Option RosterEntry := resolveMe ap players
  let candidates := riotIdCandidates ap me
  let myScores := (fetchWithRiotIdFallback inp.scoresFetch candidates).1
  let myItems : List ItemEntry :=
    normalizeItems (fetchWithRiotIdFallback inp.itemsFetch candidates).1
  let mySpells := (fetchWithRiotIdFallback inp.spellsFetch candidates).1
  let myRunes := (fetchWithRiotIdFallback inp.runesFetch candidates).1
  let myAbilities := inp.abilitiesFetch
  let resolvedRiotId : Option String := none
  let objectiveTimers := computeObjectiveTimers inp.gameStats.gameTime inp.events
  let n2t := nameToTeam players
  let myTeam := (me.bind (·.team)).getD ""
  let enemyTeam : Option String :=
    ((players.map (fun p => p.team.getD "")).filter
      (fun t => decide (t ≠ "" ∧ t ≠ myTeam))).head?
  let tally := inp.events.foldl (tallyStep n2t myTeam enemyTeam) {}
  let minutes : ℚ := max (1/60) (inp.gameStats.gameTime / 60)
  let kills := (myScores.bind (·.kills)).getD 0
  let deaths := (myScores.bind (·.deaths)).getD 0
  let assists := (myScores.bind (·.assists)).getD 0
  let cs := (myScores.bind (·.creepScore)).getD 0
  let vision := (myScores.bind (·.wardScore)).getD 0
  let kda := jsNumToString kills ++ "/" ++ jsNumToString deaths ++ "/" ++
    jsNumToString assists
  let csPerMin := jsToFixed2 (cs / minutes)
  let visionPerMin := jsToFixed2 (vision / minutes)
  let assets : Option AssetsInfo :=
    match inp.versionFetch with
    | some version =>
        if version ≠ "" then
          let champName := (me.bind (·.championName)).getD ""
          let champId := jsOrS ((inp.champIndexFetch champName).getD "")
            (if champName ≠ "" then stripNonAlpha champName else "")
          some
            { version := version
              championIconUrl :=
                if champId ≠ "" then some (buildChampionSquareUrl version champId)
                else none
              itemIconUrls :=
                myItems.foldl (itemIconAssignStep version) (List.replicate 7 none)
              runeIcons :=
                { keystone := runeIconOf inp.runeIndexFetch (myRunes.bind (·.keystone))
                  primaryTree :=
                    runeIconOf inp.runeIndexFetch (myRunes.bind (·.primaryRuneTree))
                  secondaryTree :=
                    runeIconOf inp.runeIndexFetch (myRunes.bind (·.secondaryRuneTree)) } }
        else none
    | none => none
  { error := false
    message := none
    game :=
      { mode := inp.gameStats.gameMode
        modeName := resolveGameModeName inp.gameModeMap inp.gameStats.gameMode
        time := inp.gameStats.gameTime }
    player :=
      { name := jsOrS (apFullRiotId ap) (jsOrS (apString ap) (apGameName ap))
        riotId := resolvedRiotId
        champion := (me.bind (·.championName)).getD ""
        team := myTeam
        level := (me.bind (·.level)).getD 0 }
    runes :=
      { keystone := ((myRunes.bind (·.keystone)).bind (·.displayName)).getD ""
        primaryTree := ((myRunes.bind (·.primaryRuneTree)).bind (·.displayName)).getD ""
        secondaryTree :=
          ((myRunes.bind (·.secondaryRuneTree)).bind (·.displayName)).getD "" }
    stats := { kills := kills, deaths := deaths, assists := assists, cs := cs
               vision := vision }
    derived := { kda := kda, csPerMin := csPerMin, visionPerMin := visionPerMin }
    team :=
      { myTeam := myTeam
        enemyTeam := enemyTeam
        kills := tally.teamKills
        enemyKills := tally.enemyKills
        turrets := (tally.myTurrets, tally.enemyTurrets)
        inhibs := (tally.myInhibs, tally.enemyInhibs) }
    items := buildItemsBySlot (some myItems)
    spells :=
      { d := ((mySpells.bind (·.summonerSpellOne)).bind (·.displayName)).getD ""
        f := ((mySpells.bind (·.summonerSpellTwo)).bind (·.displayName)).getD "" }
    abilities :=
      { q := (myAbilities.bind (·.q)).map (fun a => jsOrS (a.displayName.getD "") "Q")
        w := (myAbilities.bind (·.w)).map (fun a => jsOrS (a.displayName.getD "") "W")
        e := (myAbilities.bind (·.e)).map (fun a => jsOrS (a.displayName.getD "") "E")
        r := (myAbilities.bind (·.r)).map (fun a => jsOrS (a.displayName.getD "") "R") }
    objectives := objectiveTimers
    assets := assets
    raw := (inp.gameStats, inp.events) }

/-- Concrete aggregation inputs whose equipment fetch fails on every
candidate. -/
def c9Inp : FetchInputs :=
  { gameStats := { gameMode := "CLASSIC", gameTime := 600 }
    events := []
    activePlayerName := .str "alice#tag"
    playersRaw := some [{ riotIdGameName := some "alice",
                          riotIdTagLine := some "tag",
                          team := some "ORDER",
                          championName := some "Ahri",
                          level := some 5 }]
    scoresFetch := fun _ => some { kills := some 3, deaths := some 1,
                                   assists := some 2, creepScore := some 50,
                                   wardScore := some 4 }
    itemsFetch := fun _ => none
    spellsFetch := fun _ => some {}
    runesFetch := fun _ => some {}
    abilitiesFetch := none
    versionFetch := none
    champIndexFetch := fun _ => none
    runeIndexFetch := fun _ => none
    gameModeMap := fun _ => none }

/-! ## Theorems -/

/-! ## Claim C10 -/

/-- C10: for every value ms passed to the setPollingInterval handler, the
stored polling interval afterwards lies between 250 and 10000 milliseconds
inclusive; a non-numeric, NaN or zero input yields 1000 before clamping,
and the handler reports the clamped value back. -/
theorem C10_polling_interval_clamp :
    (∀ ms : Option ℚ,
        250 ≤ (setPollingIntervalHandler ms).1 ∧
        (setPollingIntervalHandler ms).1 ≤ 10000 ∧
        (setPollingIntervalHandler ms).2.pollIntervalMs =
          (setPollingIntervalHandler ms).1 ∧
        (setPollingIntervalHandler ms).2.ok = true) ∧
    jsNumberOr1000 none = 1000 ∧ jsNumberOr1000 (some 0) = 1000 := by
  refine ⟨fun ms => ⟨?_, ?_, rfl, rfl⟩, rfl, by norm_num [jsNumberOr1000]⟩
  · exact le_max_left _ _
  · simp only [setPollingIntervalHandler, setPollingIntervalClamped]
    exact max_le (by norm_num) (min_le_left _ _)

theorem countKey_nil (k : String) : countKey k [] = 0 := rfl

theorem countKey_append (k : String) (a b : List TipPayload) :
    countKey k (a ++ b) = countKey k a + countKey k b := by
  simp [countKey, List.filter_append]

theorem countKey_singleton (k : String) (p : TipPayload) :
    countKey k [p] = if payloadKey p = k then 1 else 0 := by
  simp only [countKey, List.filter]
  by_cases h : payloadKey p = k
  · simp [h]
  · have hb : (payloadKey p == k) = false := beq_eq_false_iff_ne.mpr h
    simp [hb, h]

theorem goodRel_nil (st : EngineState) : GoodRel st st [] := by
  refine ⟨rfl, fun k hk => ⟨hk, rfl⟩, fun k => ?_, fun k h => ?_⟩
  · simp [countKey_nil]
  · simp [countKey_nil] at h

theorem goodRel_fire (st st2 : EngineState) (p : TipPayload)
    (hln : st2.lastNow = st.lastNow) (hf : st2.fired = payloadKey p :: st.fired)
    (hk : payloadKey p ∉ st.fired) : GoodRel st st2 [p] := by
  refine ⟨hln, fun k hkm => ⟨?_, ?_⟩, fun k => ?_, fun k h => ?_⟩
  · rw [hf]; exact List.mem_cons_of_mem _ hkm
  · rw [countKey_singleton]
    have : payloadKey p ≠ k := fun he => hk (he ▸ hkm)
    simp [this]
  · rw [countKey_singleton]; split <;> simp
  · rw [countKey_singleton] at h
    by_cases he : payloadKey p = k
    · rw [hf, ← he]; exact List.mem_cons_self _ _
    · simp [he] at h

theorem goodRel_trans {st st1 st2 : EngineState} {e1 e2 : List TipPayload}
    (h1 : GoodRel st st1 e1) (h2 : GoodRel st1 st2 e2) :
    GoodRel st st2 (e1 ++ e2) := by
  obtain ⟨hl1, hm1, hc1, he1⟩ := h1
  obtain ⟨hl2, hm2, hc2, he2⟩ := h2
  refine ⟨hl2.trans hl1, fun k hk => ?_, fun k => ?_, fun k h => ?_⟩
  · obtain ⟨hk1, hz1⟩ := hm1 k hk
    obtain ⟨hk2, hz2⟩ := hm2 k hk1
    exact ⟨hk2, by rw [countKey_append, hz1, hz2]⟩
  · rw [countKey_append]
    rcases Nat.eq_zero_or_pos (countKey k e1) with h0 | hpos
    · rw [h0]; simpa using hc2 k
    · have hk1 : k ∈ st1.fired := he1 k hpos
      have : countKey k e2 = 0 := (hm2 k hk1).2
      rw [this]; simpa using hc1 k
  · rw [countKey_append] at h
    rcases Nat.eq_zero_or_pos (countKey k e2) with h0 | hpos
    · rw [h0, Nat.add_zero] at h
      exact (hm2 k (he1 k h)).1
    · exact he2 k hpos

/-- GoodRel holds of one per-lead firing step for cannon waves. -/
theorem cannonLeadStep_good (rule : Rule) (nowSec nowMs : ℚ) (wave : ℤ × ℚ)
    (lead : ℚ) (st : EngineState) :
    GoodRel st (cannonLeadStep rule nowSec nowMs wave lead st).1
      (cannonLeadStep rule nowSec nowMs wave lead st).2 := by
  unfold cannonLeadStep
  dsimp only
  split
  · next hcond =>
      split
      · split
        · exact goodRel_nil st
        · exact goodRel_fire st _ _ rfl rfl hcond.2
      · exact goodRel_fire st _ _ rfl rfl hcond.2
  · exact goodRel_nil st

/-- GoodRel holds of one per-lead firing step for objective spawns. -/
theorem objectiveLeadStep_good (rule : Rule) (obj : ObjectiveName) (next : ℚ)
    (nowSec nowMs : ℚ) (lead : ℚ) (st : EngineState) :
    GoodRel st (objectiveLeadStep rule obj next nowSec nowMs lead st).1
      (objectiveLeadStep rule obj next nowSec nowMs lead st).2 := by
  unfold objectiveLeadStep
  dsimp only
  split
  · next hcond =>
      split
      · split
        · exact goodRel_nil st
        · exact goodRel_fire st _ _ rfl rfl hcond.2
      · exact goodRel_fire st _ _ rfl rfl hcond.2
  · exact goodRel_nil st

/-- GoodRel lifts through foldEmit. -/
theorem foldEmit_good {α : Type} (f : α → EngineState → EngineState × List TipPayload)
    (hf : ∀ x st, GoodRel st (f x st).1 (f x st).2) :
    ∀ (xs : List α) (st : EngineState),
      GoodRel st (foldEmit f xs st).1 (foldEmit f xs st).2 := by
  intro xs
  induction xs with
  | nil => intro st; exact goodRel_nil st
  | cons x xs ih =>
      intro st
      simp only [foldEmit]
      exact goodRel_trans (hf x st) (ih (f x st).1)

/-- GoodRel holds of one rule evaluation when it does not throw. -/
theorem evalRule_good (rule : Rule) (snap : SnapshotLike) (nowSec : ℚ)
    (mode : String) (nowMs : ℚ) (st : EngineState) (r : EngineState × List TipPayload)
    (h : evalRule rule snap nowSec mode nowMs st = some r) :
    GoodRel st r.1 r.2 := by
  unfold evalRule at h
  split at h
  · cases h; exact goodRel_nil st
  · split at h
    · cases h; exact goodRel_nil st
    · split at h
      · cases h; exact goodRel_nil st
      · split at h
        · cases h
        · next leadSpec _ =>
            split at h
            · cases h; exact goodRel_nil st
            · cases h
              exact foldEmit_good _
                (fun wave st1 => foldEmit_good _
                  (fun lead st2 => cannonLeadStep_good _ _ _ _ _ _) _ st1) _ st
        · next obj leadSpec _ =>
            split at h
            · cases h; exact goodRel_nil st
            · split at h
              · cases h; exact goodRel_nil st
              · split at h
                · cases h; exact goodRel_nil st
                · cases h
                  exact foldEmit_good _
                    (fun lead st1 => objectiveLeadStep_good _ _ _ _ _ _ _) _ st

/-- GoodRel holds of the sequential evaluation of a rule list, whether or
not it runs to completion. -/
theorem evalRulesList_good (snap : SnapshotLike) (nowSec : ℚ) (mode : String)
    (nowMs : ℚ) :
    ∀ (rs : List Rule) (st : EngineState),
      GoodRel st (evalRulesList snap nowSec mode nowMs rs st).state
        (evalRulesList snap nowSec mode nowMs rs st).emits := by
  intro rs
  induction rs with
  | nil => intro st; exact goodRel_nil st
  | cons r rs ih =>
      intro st
      simp only [evalRulesList]
      cases hr : evalRule r snap nowSec mode nowMs st with
      | none => exact goodRel_nil st
      | some pr =>
          exact goodRel_trans (evalRule_good r snap nowSec mode nowMs st pr hr) (ih pr.1)

/-- GoodRel holds of the sequential evaluation of the module list. -/
theorem evalModulesList_good (snap : SnapshotLike) (nowSec : ℚ) (mode : String)
    (nowMs : ℚ) :
    ∀ (ms : List TipsModule) (st : EngineState),
      GoodRel st (evalModulesList snap nowSec mode nowMs ms st).state
        (evalModulesList snap nowSec mode nowMs ms st).emits := by
  intro ms
  induction ms with
  | nil => intro st; exact goodRel_nil st
  | cons m ms ih =>
      intro st
      simp only [evalModulesList]
      split
      · exact ih st
      · split
        · exact goodRel_trans (evalRulesList_good snap nowSec mode nowMs m.rules st)
            (ih (evalRulesList snap nowSec mode nowMs m.rules st).state)
        · exact evalRulesList_good snap nowSec mode nowMs m.rules st

/-- Tick sets the clock baseline to the observed clock. -/
theorem tick_lastNow (cfg : TipsConfig) (snap : SnapshotLike) (nowMs : ℚ)
    (st : EngineState) :
    (tick cfg snap nowMs st).1.lastNow = observedClock snap := by
  unfold tick
  exact (evalModulesList_good snap (observedClock snap) (observedMode snap) nowMs
    cfg.modules _).1

/-- One tick emits any given key at most once. -/
theorem tick_count_le_one (cfg : TipsConfig) (snap : SnapshotLike) (nowMs : ℚ)
    (st : EngineState) (k : String) :
    countKey k (tick cfg snap nowMs st).2 ≤ 1 := by
  unfold tick
  exact (evalModulesList_good snap (observedClock snap) (observedMode snap) nowMs
    cfg.modules _).2.2.1 k

/-- A key emitted during a tick is recorded in the fired set afterwards. -/
theorem tick_emit_mem_fired (cfg : TipsConfig) (snap : SnapshotLike) (nowMs : ℚ)
    (st : EngineState) (k : String) (h : 1 ≤ countKey k (tick cfg snap nowMs st).2) :
    k ∈ (tick cfg snap nowMs st).1.fired := by
  unfold tick at h ⊢
  exact (evalModulesList_good snap (observedClock snap) (observedMode snap) nowMs
    cfg.modules _).2.2.2 k h

/-- Without a clock regression, a fired key stays fired across a tick and
is not emitted again during it. -/
theorem tick_fired_mono (cfg : TipsConfig) (snap : SnapshotLike) (nowMs : ℚ)
    (st : EngineState) (k : String) (hreg : ¬ observedClock snap < st.lastNow)
    (hk : k ∈ st.fired) :
    k ∈ (tick cfg snap nowMs st).1.fired ∧ countKey k (tick cfg snap nowMs st).2 = 0 := by
  unfold tick
  dsimp only
  have hid : applyClockRegression (observedClock snap) st = st := by
    unfold applyClockRegression
    simp [hreg]
  rw [hid]
  exact (evalModulesList_good snap (observedClock snap) (observedMode snap) nowMs
    cfg.modules _).2.1 k hk

/-- Along a run whose observed clocks stay at or above the starting
baseline, a fired key stays fired and is never emitted. -/
theorem runTicks_blocked (cfg : TipsConfig) :
    ∀ (inputs : List TickInput) (st : EngineState) (k : String),
      clocksMonoFrom st.lastNow inputs = true → k ∈ st.fired →
      k ∈ (runTicks cfg inputs st).1.fired ∧
      countKey k (runTicks cfg inputs st).2 = 0 := by
  intro inputs
  induction inputs with
  | nil => intro st k _ hk; exact ⟨hk, rfl⟩
  | cons i is ih =>
      intro st k hmono hk
      simp only [clocksMonoFrom, Bool.and_eq_true, decide_eq_true_eq] at hmono
      obtain ⟨hle, hrest⟩ := hmono
      have hreg : ¬ observedClock i.snap < st.lastNow := not_lt.mpr hle
      obtain ⟨hk1, hz1⟩ := tick_fired_mono cfg i.snap i.nowMs st k hreg hk
      have hln : (tick cfg i.snap i.nowMs st).1.lastNow = observedClock i.snap :=
        tick_lastNow cfg i.snap i.nowMs st
      have hrest2 : clocksMonoFrom (tick cfg i.snap i.nowMs st).1.lastNow is = true := by
        rw [hln]; exact hrest
      obtain ⟨hk2, hz2⟩ := ih (tick cfg i.snap i.nowMs st).1 k hrest2 hk1
      refine ⟨hk2, ?_⟩
      simp only [runTicks, countKey_append, hz1, hz2]

/-- Weakening: a chain from any baseline is a chain. -/
theorem clocksMonoFrom_weaken (c : ℚ) (inputs : List TickInput)
    (h : clocksMonoFrom c inputs = true) : clocksMono inputs = true := by
  cases inputs with
  | nil => rfl
  | cons i is =>
      simp only [clocksMonoFrom, Bool.and_eq_true] at h
      exact h.2

/-- Core at-most-once property: across any run of ticks whose observed
clocks never decrease, each fired key is emitted at most once. -/
theorem runTicks_at_most_once (cfg : TipsConfig) :
    ∀ (inputs : List TickInput) (st : EngineState) (k : String),
      clocksMono inputs = true →
      countKey k (runTicks cfg inputs st).2 ≤ 1 := by
  intro inputs
  induction inputs with
  | nil => intro st k _; simp [runTicks, countKey_nil]
  | cons i is ih =>
      intro st k hmono
      simp only [clocksMono] at hmono
      simp only [runTicks, countKey_append]
      rcases Nat.eq_zero_or_pos (countKey k (tick cfg i.snap i.nowMs st).2) with h0 | hpos
      · rw [h0, Nat.zero_add]
        exact ih (tick cfg i.snap i.nowMs st).1 k (clocksMonoFrom_weaken _ _ hmono)
      · have hk1 : k ∈ (tick cfg i.snap i.nowMs st).1.fired :=
          tick_emit_mem_fired cfg i.snap i.nowMs st k hpos
        have hrest : clocksMonoFrom (tick cfg i.snap i.nowMs st).1.lastNow is = true := by
          rw [tick_lastNow]; exact hmono
        have hz : countKey k (runTicks cfg is (tick cfg i.snap i.nowMs st).1).2 = 0 :=
          (runTicks_blocked cfg is (tick cfg i.snap i.nowMs st).1 k hrest hk1).2
        rw [hz, Nat.add_zero]
        exact tick_count_le_one cfg i.snap i.nowMs st k

/-! ## Throttle suppression lemmas -/

/-- A throttled cannon firing attempt within the throttle interval leaves
the state untouched (fired set, timestamps) and emits nothing. -/
theorem cannonLeadStep_throttled (rule : Rule) (nowSec nowMs : ℚ) (wave : ℤ × ℚ)
    (lead : ℚ) (st : EngineState)
    (hthr : 0 < throttleMsOf rule.notify)
    (hlt : nowMs - ((lookupMs (cannonKey rule.id lead wave.1) st.lastFiredAtMs).getD 0)
            < (throttleMsOf rule.notify : ℚ)) :
    cannonLeadStep rule nowSec nowMs wave lead st = (st, []) := by
  unfold cannonLeadStep
  dsimp only
  split_ifs <;> rfl

/-- A throttled objective firing attempt within the throttle interval
leaves the state untouched and emits nothing. -/
theorem objectiveLeadStep_throttled (rule : Rule) (obj : ObjectiveName)
    (next nowSec nowMs : ℚ) (lead : ℚ) (st : EngineState)
    (hthr : 0 < throttleMsOf rule.notify)
    (hlt : nowMs - ((lookupMs (objectiveKey rule.id obj lead next) st.lastFiredAtMs).getD 0)
            < (throttleMsOf rule.notify : ℚ)) :
    objectiveLeadStep rule obj next nowSec nowMs lead st = (st, []) := by
  unfold objectiveLeadStep
  dsimp only
  split_ifs <;> rfl

/-! ## Rule-throw lemmas (per-rule error isolation) -/

/-- A rule that passes the enabled/phase/mode gates but lacks a trigger
object throws when rule.trigger.type is dereferenced. -/
theorem evalRule_throws (bad : Rule) (snap : SnapshotLike) (nowSec : ℚ)
    (mode : String) (nowMs : ℚ) (st : EngineState)
    (hen : bad.enabled ≠ some false)
    (hph : inPhase bad.whenCond nowSec = true)
    (hmo : modeAllowed bad.whenCond mode = true)
    (htr : bad.trigger = none) :
    evalRule bad snap nowSec mode nowMs st = none := by
  unfold evalRule
  rw [if_neg hen, if_neg (by simp [hph]), if_neg (by simp [hmo]), htr]

/-- A throwing rule aborts the evaluation of every rule after it: the rule
list behaves exactly like its prefix before the throwing rule, and the run
is marked aborted. -/
theorem evalRulesList_abort (snap : SnapshotLike) (nowSec : ℚ) (mode : String)
    (nowMs : ℚ) (bad : Rule)
    (hbad : ∀ st, evalRule bad snap nowSec mode nowMs st = none) :
    ∀ (rs1 rs2 : List Rule) (st : EngineState),
      (evalRulesList snap nowSec mode nowMs (rs1 ++ bad :: rs2) st).state =
        (evalRulesList snap nowSec mode nowMs rs1 st).state ∧
      (evalRulesList snap nowSec mode nowMs (rs1 ++ bad :: rs2) st).emits =
        (evalRulesList snap nowSec mode nowMs rs1 st).emits ∧
      (evalRulesList snap nowSec mode nowMs (rs1 ++ bad :: rs2) st).ok = false := by
  intro rs1
  induction rs1 with
  | nil =>
      intro rs2 st
      simp [evalRulesList, hbad st]
  | cons r rs ih =>
      intro rs2 st
      simp only [List.cons_append, evalRulesList]
      cases hr : evalRule r snap nowSec mode nowMs st with
      | none => exact ⟨rfl, rfl, rfl⟩
      | some pr =>
          dsimp only
          obtain ⟨h1, h2, h3⟩ := ih rs2 pr.1
          exact ⟨h1, congrArg (fun l => pr.2 ++ l) h2, h3⟩

/-! ## Claim C1 -/

/-- C1: across any sequence of TipsEngine ticks in which the observed game
clock never decreases, every fired key (rule, lead, occurrence) is carried
by at most one emitted tip; and on a concrete monotone series crossing the
lead-time window of cannon wave 3 exactly once, exactly one notification
with that key is emitted. -/
theorem C1_at_most_once_firing :
    (∀ (cfg : TipsConfig) (inputs : List TickInput) (st : EngineState) (k : String),
        clocksMono inputs = true →
        countKey k (runTicks cfg inputs st).2 ≤ 1) ∧
    countKey c1Key (runTicks c1Cfg c1Inputs initialEngineState).2 = 1 := by
  constructor
  · exact fun cfg inputs st k h => runTicks_at_most_once cfg inputs st k h
  · with_unfolding_all decide

/-- Witness instantiating C1 at the concrete run. -/
theorem C1_at_most_once_firing_witness :
    clocksMono c1Inputs = true ∧
    countKey c1Key (runTicks c1Cfg c1Inputs initialEngineState).2 ≤ 1 :=
  ⟨by with_unfolding_all decide,
   C1_at_most_once_firing.1 c1Cfg c1Inputs initialEngineState c1Key
     (by with_unfolding_all decide)⟩

/-! ## Claim C4 -/

/-- C4: whenever the observed clock is strictly below the previous tick's
clock, the regression handler clears the entire fired set while leaving the
throttle timestamps (and the still-unset baseline) untouched; and without a
regression no fired key ever leaves the fired set, so the regression is the
only transition back to unfired. -/
theorem C4_clock_regression_reset :
    (∀ (nowSec : ℚ) (st : EngineState), nowSec < st.lastNow →
        (applyClockRegression nowSec st).fired = [] ∧
        (applyClockRegression nowSec st).lastFiredAtMs = st.lastFiredAtMs) ∧
    (∀ (cfg : TipsConfig) (snap : SnapshotLike) (nowMs : ℚ) (st : EngineState)
        (k : String),
        ¬ observedClock snap < st.lastNow → k ∈ st.fired →
        k ∈ (tick cfg snap nowMs st).1.fired) := by
  constructor
  · intro nowSec st h
    unfold applyClockRegression
    rw [if_pos h]
    exact ⟨rfl, rfl⟩
  · intro cfg snap nowMs st k hreg hk
    exact (tick_fired_mono cfg snap nowMs st k hreg hk).1

/-- Witness instantiating C4 at concrete states: a regression from baseline
10 to clock 5 clears the fired set and keeps the timestamp map; a tick at
clock 12 keeps the fired key. -/
theorem C4_clock_regression_reset_witness :
    ((applyClockRegression 5 c4State).fired = [] ∧
     (applyClockRegression 5 c4State).lastFiredAtMs = c4State.lastFiredAtMs) ∧
    "k" ∈ (tick ⟨[]⟩ c4Snap 0 c4State).1.fired :=
  ⟨C4_clock_regression_reset.1 5 c4State (by with_unfolding_all decide),
   C4_clock_regression_reset.2 ⟨[]⟩ c4Snap 0 c4State "k"
     (by with_unfolding_all decide) (by with_unfolding_all decide)⟩

/-! ## Claim C8 -/

/-- C8: when a rule specifies a throttle interval and the wall clock since
the last recorded emission of the same key is below it, the firing attempt
is suppressed with the whole state (fired set and last-fired-at timestamps)
unchanged, for both trigger kinds; and in the concrete two-tick run
c8Inputs (two would-be firings of cw:30:3 separated by 5 wall-clock seconds
across a clock regression, throttleSec = 10) exactly one emission occurs
and the timestamp of the first emission is the only one recorded. -/
theorem C8_throttle_suppression :
    (∀ (rule : Rule) (nowSec nowMs : ℚ) (wave : ℤ × ℚ) (lead : ℚ)
        (st : EngineState),
        0 < throttleMsOf rule.notify →
        nowMs - ((lookupMs (cannonKey rule.id lead wave.1) st.lastFiredAtMs).getD 0)
          < (throttleMsOf rule.notify : ℚ) →
        cannonLeadStep rule nowSec nowMs wave lead st = (st, [])) ∧
    (∀ (rule : Rule) (obj : ObjectiveName) (next nowSec nowMs : ℚ) (lead : ℚ)
        (st : EngineState),
        0 < throttleMsOf rule.notify →
        nowMs - ((lookupMs (objectiveKey rule.id obj lead next) st.lastFiredAtMs).getD 0)
          < (throttleMsOf rule.notify : ℚ) →
        objectiveLeadStep rule obj next nowSec nowMs lead st = (st, [])) ∧
    countKey (cannonKey "cw" 30 3) (runTicks c8Cfg c8Inputs initialEngineState).2 = 1 ∧
    (runTicks c8Cfg c8Inputs initialEngineState).1.lastFiredAtMs =
      [(cannonKey "cw" 30 3, 1000000)] := by
  refine ⟨?_, ?_, ?_, ?_⟩
  · exact fun rule nowSec nowMs wave lead st h1 h2 =>
      cannonLeadStep_throttled rule nowSec nowMs wave lead st h1 h2
  · exact fun rule obj next nowSec nowMs lead st h1 h2 =>
      objectiveLeadStep_throttled rule obj next nowSec nowMs lead st h1 h2
  · with_unfolding_all decide
  · with_unfolding_all rfl

/-- Witness instantiating the C8 suppression clauses at game time 121, wall
clock 600, with a timestamp 100 milliseconds in the past and a 10 second
throttle: the attempt leaves the state unchanged and emits nothing. -/
theorem C8_throttle_suppression_witness :
    cannonLeadStep c8Rule 121 600 (3, 150) 30 c8WitState = (c8WitState, []) ∧
    objectiveLeadStep c8Rule .dragon 150 121 600 30 c8WitState = (c8WitState, []) :=
  ⟨C8_throttle_suppression.1 c8Rule 121 600 (3, 150) 30 c8WitState
     (by with_unfolding_all decide) (by with_unfolding_all decide),
   C8_throttle_suppression.2.1 c8Rule .dragon 150 121 600 30 c8WitState
     (by with_unfolding_all decide) (by with_unfolding_all decide)⟩

/-! ## Claim C3 -/

/-- C3 counterexample: in the configuration where the broken rule (no
trigger) precedes the good cannon rule, a tick at game time 121 emits
nothing, although the same tick with the good rule alone emits a tip — so
the error in one rule did abort the evaluation of the remaining rules. -/
theorem C3_counterexample_rule_error_stops_tick :
    (tick c3CfgBoth (gameSnap 121) 0 initialEngineState).2 = [] ∧
    (tick c3CfgGood (gameSnap 121) 0 initialEngineState).2 ≠ [] := by
  constructor
  · with_unfolding_all decide
  · with_unfolding_all decide

/-- C3 amended: an error thrown while evaluating one rule is caught only at
tick granularity: the rule list behaves exactly like its prefix before the
throwing rule — the remaining rules of that tick are NOT evaluated — and
the run is marked aborted; state changes made before the throw persist. -/
theorem C3_rule_error_aborts_remaining_rules (snap : SnapshotLike) (nowSec : ℚ)
    (mode : String) (nowMs : ℚ) (bad : Rule) (rs1 rs2 : List Rule)
    (st : EngineState)
    (hen : bad.enabled ≠ some false)
    (hph : inPhase bad.whenCond nowSec = true)
    (hmo : modeAllowed bad.whenCond mode = true)
    (htr : bad.trigger = none) :
    (evalRulesList snap nowSec mode nowMs (rs1 ++ bad :: rs2) st).state =
      (evalRulesList snap nowSec mode nowMs rs1 st).state ∧
    (evalRulesList snap nowSec mode nowMs (rs1 ++ bad :: rs2) st).emits =
      (evalRulesList snap nowSec mode nowMs rs1 st).emits ∧
    (evalRulesList snap nowSec mode nowMs (rs1 ++ bad :: rs2) st).ok = false :=
  evalRulesList_abort snap nowSec mode nowMs bad
    (fun st1 => evalRule_throws bad snap nowSec mode nowMs st1 hen hph hmo htr)
    rs1 rs2 st

/-- Witness instantiating the amended C3 statement on the concrete broken
configuration: with the broken rule before the good rule, the rule list
behaves like the empty prefix (no emissions, original state) and aborts. -/
theorem C3_rule_error_aborts_remaining_rules_witness :
    (evalRulesList (gameSnap 121) 121 "CLASSIC" 0 ([] ++ c3BadRule :: [c3GoodRule])
        initialEngineState).emits = [] ∧
    (evalRulesList (gameSnap 121) 121 "CLASSIC" 0 ([] ++ c3BadRule :: [c3GoodRule])
        initialEngineState).ok = false := by
  have h := C3_rule_error_aborts_remaining_rules (gameSnap 121) 121 "CLASSIC" 0
    c3BadRule [] [c3GoodRule] initialEngineState
    (by with_unfolding_all decide) (by with_unfolding_all decide)
    (by with_unfolding_all decide) (by with_unfolding_all decide)
  exact ⟨h.2.1, h.2.2⟩

theorem lastKillOf_fold_aux (name : String) (ev : GameEvent) :
    ∀ (events : List GameEvent) (acc : Option GameEvent),
      events.foldl (fun acc e => if e.eventName = name then some e else acc) acc
        = some ev →
      acc = some ev ∨ (ev ∈ events ∧ ev.eventName = name) := by
  intro events
  induction events with
  | nil => intro acc h; exact Or.inl h
  | cons e es ih =>
      intro acc h
      simp only [List.foldl_cons] at h
      rcases ih _ h with hacc | ⟨hmem, hname⟩
      · by_cases he : e.eventName = name
        · rw [if_pos he] at hacc
          cases hacc
          exact Or.inr ⟨List.mem_cons_self _ _, he⟩
        · rw [if_neg he] at hacc
          exact Or.inl hacc
      · exact Or.inr ⟨List.mem_cons_of_mem _ hmem, hname⟩

/-- A result of the last-kill scan is a member of the log with the scanned
name. -/
theorem lastKillOf_mem (name : String) (events : List GameEvent) (ev : GameEvent)
    (h : lastKillOf name events = some ev) : ev ∈ events ∧ ev.eventName = name := by
  rcases lastKillOf_fold_aux name ev events none h with hacc | hr
  · cases hacc
  · exact hr

/-- Appending a kill event of the scanned name makes it the last kill. -/
theorem lastKillOf_append (name : String) (events : List GameEvent)
    (ev : GameEvent) (hname : ev.eventName = name) :
    lastKillOf name (events ++ [ev]) = some ev := by
  unfold lastKillOf
  rw [List.foldl_append]
  simp [hname]

/-- Dragon next-spawn time is non-decreasing in the game time for a fixed
plausible log. -/
theorem nextDragonAt_mono (events : List GameEvent) (h : PlausibleLog events)
    (t1 t2 : ℚ) (hle : t1 ≤ t2) :
    nextDragonAt t1 events ≤ nextDragonAt t2 events := by
  unfold nextDragonAt
  by_cases h1 : t1 < 300
  · rw [if_pos h1]
    by_cases h2 : t2 < 300
    · rw [if_pos h2]
    · rw [if_neg h2]
      cases hk : lastKillOf "DragonKill" events with
      | none => exact le_refl _
      | some ev =>
          obtain ⟨hmem, hname⟩ := lastKillOf_mem _ _ _ hk
          have := (h ev hmem).1 hname
          dsimp only
          linarith
  · rw [if_neg h1, if_neg (by intro h2; exact h1 (lt_of_le_of_lt hle h2))]

/-- Herald next-spawn time is non-decreasing in the game time for a fixed
plausible log. -/
theorem nextHeraldAt_mono (events : List GameEvent) (h : PlausibleLog events)
    (t1 t2 : ℚ) (hle : t1 ≤ t2) :
    nextHeraldAt t1 events ≤ nextHeraldAt t2 events := by
  unfold nextHeraldAt
  by_cases h1 : t1 < 480
  · rw [if_pos h1]
    by_cases h2 : t2 < 480
    · rw [if_pos h2]
    · rw [if_neg h2]
      refine le_min (by norm_num) ?_
      cases hk : lastKillOf "HeraldKill" events with
      | none => exact le_refl _
      | some ev =>
          obtain ⟨hmem, hname⟩ := lastKillOf_mem _ _ _ hk
          have := (h ev hmem).2.1 hname
          dsimp only
          linarith
  · rw [if_neg h1, if_neg (by intro h2; exact h1 (lt_of_le_of_lt hle h2))]

/-- Baron next-spawn time is non-decreasing in the game time for a fixed
plausible log. -/
theorem nextBaronAt_mono (events : List GameEvent) (h : PlausibleLog events)
    (t1 t2 : ℚ) (hle : t1 ≤ t2) :
    nextBaronAt t1 events ≤ nextBaronAt t2 events := by
  unfold nextBaronAt
  by_cases h1 : t1 < 1200
  · rw [if_pos h1]
    by_cases h2 : t2 < 1200
    · rw [if_pos h2]
    · rw [if_neg h2]
      cases hk : lastKillOf "BaronKill" events with
      | none => exact le_refl _
      | some ev =>
          obtain ⟨hmem, hname⟩ := lastKillOf_mem _ _ _ hk
          have := (h ev hmem).2.2 hname
          dsimp only
          linarith
  · rw [if_neg h1, if_neg (by intro h2; exact h1 (lt_of_le_of_lt hle h2))]

/-- Appending a dragon kill at time tau sets the next dragon spawn to
tau + 300 once the clock is past the first spawn. -/
theorem nextDragonAt_kill_jump (events : List GameEvent) (tau t : ℚ)
    (dt : Option String) (ht : 300 ≤ t) :
    nextDragonAt t (events ++ [⟨"DragonKill", tau, dt, none⟩]) = tau + 300 := by
  unfold nextDragonAt
  rw [if_neg (not_lt.mpr ht),
    lastKillOf_append "DragonKill" events ⟨"DragonKill", tau, dt, none⟩ rfl]

/-- Appending a baron kill at time tau sets the next baron spawn to
tau + 360 once the clock is past the first spawn. -/
theorem nextBaronAt_kill_jump (events : List GameEvent) (tau t : ℚ)
    (ht : 1200 ≤ t) :
    nextBaronAt t (events ++ [⟨"BaronKill", tau, none, none⟩]) = tau + 360 := by
  unfold nextBaronAt
  rw [if_neg (not_lt.mpr ht),
    lastKillOf_append "BaronKill" events ⟨"BaronKill", tau, none, none⟩ rfl]

/-- Appending a herald kill at time tau sets the next herald spawn to
min 1200 (tau + 360) once the clock is past the first spawn: the jump is
clamped at the baron first-spawn deadline. -/
theorem nextHeraldAt_kill_jump (events : List GameEvent) (tau t : ℚ)
    (ht : 480 ≤ t) :
    nextHeraldAt t (events ++ [⟨"HeraldKill", tau, none, none⟩]) = min 1200 (tau + 360) := by
  unfold nextHeraldAt
  rw [if_neg (not_lt.mpr ht),
    lastKillOf_append "HeraldKill" events ⟨"HeraldKill", tau, none, none⟩ rfl]

/-! ## Claim C7 -/

/-- C7 counterexample: a herald killed at 900 in an otherwise empty log
yields nextSpawnTime 1200 at game time 900, not 900 + 360 = 1260 — the
jump after a herald kill is not one full cadence, being clamped at the
baron first-spawn deadline. -/
theorem C7_counterexample_herald_clamped :
    (computeObjectiveTimers 900 [⟨"HeraldKill", 900, none, none⟩]).herald.nextSpawnTime
      = 1200 ∧
    ((900 : ℚ) + 360 ≠ 1200) := by
  constructor
  · with_unfolding_all decide
  · with_unfolding_all decide

/-- C7 amended: for a fixed plausible log (kills no earlier than the
objective's first spawn), every objective's nextSpawnTime is non-decreasing
in the game time; immediately after a recorded kill, dragon and baron jump
to exactly kill time + cadence, while herald jumps to the same value
clamped at the baron first-spawn deadline (1200). -/
theorem C7_objective_timer_monotonicity :
    (∀ (events : List GameEvent) (t1 t2 : ℚ), PlausibleLog events → t1 ≤ t2 →
        (computeObjectiveTimers t1 events).dragon.nextSpawnTime ≤
          (computeObjectiveTimers t2 events).dragon.nextSpawnTime ∧
        (computeObjectiveTimers t1 events).herald.nextSpawnTime ≤
          (computeObjectiveTimers t2 events).herald.nextSpawnTime ∧
        (computeObjectiveTimers t1 events).baron.nextSpawnTime ≤
          (computeObjectiveTimers t2 events).baron.nextSpawnTime) ∧
    (∀ (events : List GameEvent) (tau t : ℚ) (dt : Option String), 300 ≤ t →
        (computeObjectiveTimers t (events ++ [⟨"DragonKill", tau, dt, none⟩])).dragon.nextSpawnTime
          = tau + 300) ∧
    (∀ (events : List GameEvent) (tau t : ℚ), 1200 ≤ t →
        (computeObjectiveTimers t (events ++ [⟨"BaronKill", tau, none, none⟩])).baron.nextSpawnTime
          = tau + 360) ∧
    (∀ (events : List GameEvent) (tau t : ℚ), 480 ≤ t →
        (computeObjectiveTimers t (events ++ [⟨"HeraldKill", tau, none, none⟩])).herald.nextSpawnTime
          = min 1200 (tau + 360)) := by
  refine ⟨fun events t1 t2 hp hle => ⟨?_, ?_, ?_⟩, ?_, ?_, ?_⟩
  · exact nextDragonAt_mono events hp t1 t2 hle
  · exact nextHeraldAt_mono events hp t1 t2 hle
  · exact nextBaronAt_mono events hp t1 t2 hle
  · exact fun events tau t dt ht => nextDragonAt_kill_jump events tau t dt ht
  · exact fun events tau t ht => nextBaronAt_kill_jump events tau t ht
  · exact fun events tau t ht => nextHeraldAt_kill_jump events tau t ht

/-- Witness instantiating C7: monotonicity on a concrete plausible log
between times 310 and 320, and the three kill-jump equations at concrete
kill times. -/
theorem C7_objective_timer_monotonicity_witness :
    ((computeObjectiveTimers 310 [⟨"DragonKill", 305, none, none⟩]).dragon.nextSpawnTime ≤
      (computeObjectiveTimers 320 [⟨"DragonKill", 305, none, none⟩]).dragon.nextSpawnTime) ∧
    (computeObjectiveTimers 400 ([] ++ [⟨"DragonKill", 390, none, none⟩])).dragon.nextSpawnTime
      = 390 + 300 ∧
    (computeObjectiveTimers 1300 ([] ++ [⟨"BaronKill", 1250, none, none⟩])).baron.nextSpawnTime
      = 1250 + 360 ∧
    (computeObjectiveTimers 500 ([] ++ [⟨"HeraldKill", 490, none, none⟩])).herald.nextSpawnTime
      = min 1200 (490 + 360) :=
  ⟨(C7_objective_timer_monotonicity.1 [⟨"DragonKill", 305, none, none⟩] 310 320
      (by intro ev hev; simp only [List.mem_singleton] at hev; subst hev
          refine ⟨fun _ => by norm_num, fun h => ?_, fun h => ?_⟩ <;> simp at h)
      (by norm_num)).1,
   C7_objective_timer_monotonicity.2.1 [] 390 400 none (by norm_num),
   C7_objective_timer_monotonicity.2.2.1 [] 1250 1300 (by norm_num),
   C7_objective_timer_monotonicity.2.2.2 [] 490 500 (by norm_num)⟩

/-- C5 counterexample: at gameTime 1185 with an event log containing no
dragon kill, the code's stale-first-spawn policy yields dragon
nextSpawnTime 300 (the long-past first spawn) and timeToSpawn "-14:45" —
not 1200 / "0:15" as the claim states. -/
theorem C5_counterexample_stale_dragon_spawn :
    (computeObjectiveTimers 1185 []).dragon.nextSpawnTime = 300 ∧
    (computeObjectiveTimers 1185 []).dragon.nextSpawnTime ≠ 1200 ∧
    (computeObjectiveTimers 1185 []).dragon.timeToSpawn = "-14:45" := by
  refine ⟨?_, ?_, ?_⟩ <;> with_unfolding_all decide

/-- C5 amended: with a dragon kill recorded at 900 (and no later dragon
kill), at gameTime 1185 the dragon objective has nextSpawnTime 1200 and
timeToSpawn "0:15"; a tick at gameTime 1170 emits exactly one notification
titled "Dragon in 30s" for rule dragon_prep_30 with leadSeconds 30, and the
following tick at gameTime 1185 emits nothing more for that occurrence. -/
theorem C5_end_to_end_dragon_example :
    (computeObjectiveTimers 1185 c5Events).dragon.nextSpawnTime = 1200 ∧
    (computeObjectiveTimers 1185 c5Events).dragon.timeToSpawn = "0:15" ∧
    (runTicks c5Cfg c5Inputs initialEngineState).2.map TipPayload.title
      = ["Dragon in 30s"] ∧
    (tick c5Cfg (c5Snap 1185) 1000
        (tick c5Cfg (c5Snap 1170) 0 initialEngineState).1).2 = [] := by
  refine ⟨?_, ?_, ?_, ?_⟩ <;> with_unfolding_all decide

theorem resolveMeLoop_some (ap : ActivePlayerName) :
    ∀ (ps : List RosterEntry) (m : RosterEntry),
      resolveMeLoop ap ps (some m) =
        match ps.find? (tier1Match ap) with
        | some p => some p
        | none => some m := by
  intro ps
  induction ps with
  | nil => intro m; rfl
  | cons p ps ih =>
      intro m
      simp only [resolveMeLoop, List.find?]
      cases h1 : tier1Match ap p with
      | true => simp
      | false => simp [ih m]

theorem resolveMeLoop_none (ap : ActivePlayerName) :
    ∀ ps : List RosterEntry,
      resolveMeLoop ap ps none =
        match ps.find? (tier1Match ap) with
        | some p => some p
        | none => ps.find? (tier234Match ap) := by
  intro ps
  induction ps with
  | nil => rfl
  | cons p ps ih =>
      simp only [resolveMeLoop, List.find?]
      cases h1 : tier1Match ap p with
      | true => simp
      | false =>
          simp only [Bool.false_eq_true, if_false]
          cases h234 : tier234Match ap p with
          | true =>
              have hsome :
                  (let me1 := if Option.isNone (none : Option RosterEntry) && tier2Match ap p
                              then some p else none
                   let me2 := if me1.isNone && tier3Match ap p then some p else me1
                   let me3 := if me2.isNone && tier4Match ap p then some p else me2
                   me3) = some p := by
                simp only [tier234Match, Bool.or_eq_true] at h234
                rcases h234 with (h2 | h3) | h4
                · simp [h2]
                · cases ht2 : tier2Match ap p <;> simp [ht2, h3]
                · cases ht2 : tier2Match ap p <;>
                    cases ht3 : tier3Match ap p <;> simp [ht2, ht3, h4]
              simp only [hsome]
              rw [resolveMeLoop_some ap ps p]
          | false =>
              have hnone :
                  (let me1 := if Option.isNone (none : Option RosterEntry) && tier2Match ap p
                              then some p else none
                   let me2 := if me1.isNone && tier3Match ap p then some p else me1
                   let me3 := if me2.isNone && tier4Match ap p then some p else me2
                   me3) = none := by
                simp only [tier234Match, Bool.or_eq_false_iff] at h234
                simp [h234.1.1, h234.1.2, h234.2]
              simp only [hnone]
              exact ih

/-- Precedence structure actually implemented by the roster loop: the first
tier-1 (composite) match wins over everything regardless of position;
otherwise the first roster entry matching any of tiers 2-4 wins (roster
order, not tier precedence); otherwise the first roster entry. -/
theorem resolveMe_spec (ap : ActivePlayerName) (players : List RosterEntry) :
    resolveMe ap players =
      match players.find? (tier1Match ap) with
      | some p => some p
      | none =>
          match players.find? (tier234Match ap) with
          | some p => some p
          | none => players.head? := by
  unfold resolveMe
  rw [resolveMeLoop_none ap players]
  cases h1 : players.find? (tier1Match ap) with
  | some p => rfl
  | none =>
      cases h2 : players.find? (tier234Match ap) with
      | some p => rfl
      | none => rfl

/-- C2 counterexample: the roster holds a name-only match first, then a
structured name+tag match, then a legacy-name entry; the name+tag entry
matches tier 2 yet resolution selects the earlier name-only entry — the
name+tag match is NOT always the one selected. -/
theorem C2_counterexample_order_beats_tier :
    tier2Match c2Ap c2NameTag = true ∧
    tier1Match c2Ap c2NameTag = false ∧
    tier3Match c2Ap c2NameOnly = true ∧
    resolveMe c2Ap [c2NameOnly, c2NameTag, c2Legacy] = some c2NameOnly ∧
    resolveMe c2Ap [c2NameOnly, c2NameTag, c2Legacy] ≠ some c2NameTag := by
  refine ⟨?_, ?_, ?_, ?_, ?_⟩ <;> with_unfolding_all decide

/-- C2 amended: the matched roster entry is the first tier-1 (composite
full-identity, case-insensitive, trimmed) match when one exists, this tier
alone taking precedence regardless of roster order; otherwise the first
roster entry in order matching any of tier 2 (structured name+tag), tier 3
(name-only) or tier 4 (legacy bare-name, active string without '#') — the
tiers 2-4 compete by roster position, not by tier rank; otherwise the first
roster entry. -/
theorem C2_identity_resolution_precedence (ap : ActivePlayerName)
    (players : List RosterEntry) :
    resolveMe ap players =
      match players.find? (tier1Match ap) with
      | some p => some p
      | none =>
          match players.find? (tier234Match ap) with
          | some p => some p
          | none => players.head? :=
  resolveMe_spec ap players

theorem itemAssign_step_length (acc : List (Option String)) (e : ItemEntry) :
    (itemAssignStep acc e).length = acc.length := by
  unfold itemAssignStep
  cases e.slot with
  | none => rfl
  | some s =>
      dsimp only
      split
      · exact List.length_set acc s.toNat _
      · rfl

theorem itemAssign_foldl_length :
    ∀ (l : List ItemEntry) (acc : List (Option String)),
      (l.foldl itemAssignStep acc).length = acc.length := by
  intro l
  induction l with
  | nil => intro acc; rfl
  | cons e es ih =>
      intro acc
      rw [List.foldl_cons, ih]
      exact itemAssign_step_length acc e

theorem itemAssign_step_get_ne (acc : List (Option String)) (e : ItemEntry)
    (j : ℕ) (h : ¬ ValidAt e j) : (itemAssignStep acc e)[j]? = acc[j]? := by
  unfold itemAssignStep
  cases hs : e.slot with
  | none => rfl
  | some s =>
      dsimp only
      split
      · next hc =>
          refine List.getElem?_set_ne (fun he => h ?_)
          obtain ⟨h0, h6, hname⟩ := hc
          refine ⟨?_, ?_, hname⟩
          · rw [hs, ← he, Int.toNat_of_nonneg h0]
          · omega
      · rfl

theorem itemAssign_foldl_get_none (j : ℕ) :
    ∀ (l : List ItemEntry) (acc : List (Option String)),
      (∀ e ∈ l, ¬ ValidAt e j) →
      (l.foldl itemAssignStep acc)[j]? = acc[j]? := by
  intro l
  induction l with
  | nil => intro acc _; rfl
  | cons e es ih =>
      intro acc hnone
      rw [List.foldl_cons, ih _ (fun x hx => hnone x (List.mem_cons_of_mem _ hx))]
      exact itemAssign_step_get_ne acc e j (hnone e (List.mem_cons_self _ _))

theorem itemAssign_foldl_get_filled (j : ℕ) (v : String) :
    ∀ (l : List ItemEntry) (acc : List (Option String)),
      (l.foldl itemAssignStep acc)[j]? = some (some v) →
      acc[j]? = some (some v) ∨ ∃ e ∈ l, ValidAt e j ∧ e.displayName.getD "" = v := by
  intro l
  induction l with
  | nil => intro acc h; exact Or.inl h
  | cons e es ih =>
      intro acc h
      rw [List.foldl_cons] at h
      rcases ih _ h with hstep | ⟨e2, hmem, hval, hname⟩
      · by_cases hv : ValidAt e j
        · unfold itemAssignStep at hstep
          obtain ⟨hs, h6, hn⟩ := hv
          rw [hs] at hstep
          dsimp only at hstep
          rw [if_pos ⟨Int.natCast_nonneg j, by exact_mod_cast h6, hn⟩] at hstep
          by_cases hj : ((j : ℤ).toNat) = j
          · rw [hj] at hstep
            by_cases hlen : j < acc.length
            · rw [List.getElem?_set_self hlen] at hstep
              cases hstep
              exact Or.inr ⟨e, List.mem_cons_self _ _, ⟨hs, h6, hn⟩, rfl⟩
            · rw [List.set_eq_of_length_le (by omega)] at hstep
              exact Or.inl hstep
          · exact absurd (Int.toNat_natCast j) hj
        · rw [itemAssign_step_get_ne acc e j hv] at hstep
          exact Or.inl hstep
      · exact Or.inr ⟨e2, List.mem_cons_of_mem _ hmem, hval, hname⟩

theorem itemAssign_foldl_get_agree (j : ℕ) (v : String) :
    ∀ (l : List ItemEntry) (acc : List (Option String)), acc.length = 7 →
      (∃ e ∈ l, ValidAt e j) →
      (∀ e ∈ l, ValidAt e j → e.displayName.getD "" = v) →
      (l.foldl itemAssignStep acc)[j]? = some (some v) := by
  intro l
  induction l with
  | nil => intro acc _ hex _; exact absurd hex (by simp)
  | cons e es ih =>
      intro acc hlen hex hall
      rw [List.foldl_cons]
      by_cases hv : ValidAt e j
      · have hname := hall e (List.mem_cons_self _ _) hv
        have hstep : (itemAssignStep acc e)[j]? = some (some v) := by
          unfold itemAssignStep
          obtain ⟨hs, h6, hn⟩ := hv
          rw [hs]
          dsimp only
          rw [if_pos ⟨Int.natCast_nonneg j, by exact_mod_cast h6, hn⟩,
            Int.toNat_natCast, List.getElem?_set_self (by omega), hname]
        by_cases hex2 : ∃ e2 ∈ es, ValidAt e2 j
        · exact ih _ (by rw [itemAssign_step_length]; exact hlen) hex2
            (fun x hx => hall x (List.mem_cons_of_mem _ hx))
        · rw [itemAssign_foldl_get_none j es _ (fun x hx hvx => hex2 ⟨x, hx, hvx⟩)]
          exact hstep
      · have hstep := itemAssign_step_get_ne acc e j hv
        have hex2 : ∃ e2 ∈ es, ValidAt e2 j := by
          obtain ⟨e2, hmem, hval⟩ := hex
          rcases List.mem_cons.mp hmem with rfl | hmem2
          · exact absurd hval hv
          · exact ⟨e2, hmem2, hval⟩
        exact ih _ (by rw [itemAssign_step_length]; exact hlen) hex2
          (fun x hx => hall x (List.mem_cons_of_mem _ hx))

/-- C6 counterexample: with two valid entries sharing slot 0, only the
later one (after the stable slot sort) survives: entry "A" appears nowhere
in the output, so not every valid (slot, displayName) input pair appears at
its slot index. -/
theorem C6_counterexample_duplicate_slot :
    buildItemsBySlot (some c6Dup)
      = [some "B", none, none, none, none, none, none] ∧
    some "A" ∉ buildItemsBySlot (some c6Dup) := by
  constructor <;> with_unfolding_all decide

/-- C6 amended: the normalized equipment list always has exactly 7
positions; an input entry whose slot is a number in 0..6 and whose
displayName is truthy occupies its slot index whenever every entry sharing
that slot agrees on the name (in particular whenever its slot is unique
among valid entries); every filled position comes from some valid entry of
the input (so out-of-range and non-numeric slots are dropped); and a
position no valid entry maps to holds the explicit absence marker null. -/
theorem C6_equipment_slot_invariant :
    (∀ items : Option (List ItemEntry), (buildItemsBySlot items).length = 7) ∧
    (∀ (l : List ItemEntry) (e : ItemEntry) (j : ℕ), e ∈ l → ValidAt e j →
        (∀ e2 ∈ l, ValidAt e2 j → e2.displayName.getD "" = e.displayName.getD "") →
        (buildItemsBySlot (some l))[j]? = some (some (e.displayName.getD ""))) ∧
    (∀ (l : List ItemEntry) (j : ℕ) (v : String),
        (buildItemsBySlot (some l))[j]? = some (some v) →
        ∃ e ∈ l, ValidAt e j ∧ e.displayName.getD "" = v) ∧
    (∀ (l : List ItemEntry) (j : ℕ), j < 7 → (∀ e ∈ l, ¬ ValidAt e j) →
        (buildItemsBySlot (some l))[j]? = some none) := by
  refine ⟨?_, ?_, ?_, ?_⟩
  · intro items
    cases items with
    | none => rfl
    | some l =>
        unfold buildItemsBySlot
        rw [itemAssign_foldl_length]
        rfl
  · intro l e j hmem hval hall
    unfold buildItemsBySlot
    refine itemAssign_foldl_get_agree j _ _ _ rfl ?_ ?_
    · exact ⟨e, (List.mem_insertionSort _).mpr hmem, hval⟩
    · exact fun e2 he2 hv2 => hall e2 ((List.mem_insertionSort _).mp he2) hv2
  · intro l j v h
    unfold buildItemsBySlot at h
    rcases itemAssign_foldl_get_filled j v _ _ h with hinit | ⟨e, hmem, hval, hname⟩
    · rw [List.getElem?_replicate] at hinit
      by_cases hj : j < 7 <;> simp [hj] at hinit
    · exact ⟨e, (List.mem_insertionSort _).mp hmem, hval, hname⟩
  · intro l j hj hnone
    unfold buildItemsBySlot sortItemsBySlot
    dsimp only
    rw [itemAssign_foldl_get_none j _ _
      (fun e he => hnone e ((List.mem_insertionSort _).mp he)),
      List.getElem?_replicate, if_pos hj]

/-- Witness instantiating the C6 conjuncts on a one-entry list: the sword
at slot 2 appears at index 2, a filled index 2 traces back to that entry,
and index 5 holds null. -/
theorem C6_equipment_slot_invariant_witness :
    (buildItemsBySlot (some [{ slot := some 2, displayName := some "Sword" }])).length
      = 7 ∧
    (buildItemsBySlot (some [{ slot := some 2, displayName := some "Sword" }]))[2]?
      = some (some "Sword") ∧
    (buildItemsBySlot (some [{ slot := some 2, displayName := some "Sword" }]))[5]?
      = some none :=
  ⟨C6_equipment_slot_invariant.1 _,
   C6_equipment_slot_invariant.2.1
     [{ slot := some 2, displayName := some "Sword" }]
     { slot := some 2, displayName := some "Sword" } 2
     (List.mem_singleton.mpr rfl) ⟨rfl, by norm_num, by decide⟩
     (by intro e2 he2 _
         rw [List.mem_singleton.mp he2]),
   C6_equipment_slot_invariant.2.2.2
     [{ slot := some 2, displayName := some "Sword" }] 5 (by norm_num)
     (by intro e he hv
         rw [List.mem_singleton.mp he] at hv
         obtain ⟨hs, _, _⟩ := hv
         simp at hs)⟩

theorem fetchWithRiotIdFallback_none {α : Type} (fetch : String → Option α)
    (h : ∀ id, fetch id = none) :
    ∀ l : List String, fetchWithRiotIdFallback fetch l = (none, none) := by
  intro l
  induction l with
  | nil => rfl
  | cons id rest ih =>
      simp only [fetchWithRiotIdFallback, h id]
      exact ih

/-! ## Claim C9 -/

/-- C9: when the equipment fetch fails for every identity candidate, the
snapshot still carries exactly 7 null equipment slots, its error flag stays
false, the objective timers are those of the timer model, and every other
field (game, player, runes, stats, derived, team, spells, abilities,
objectives, error, message, raw) is the same as it would be under any other
outcome of the equipment fetch — the failure is confined to items and the
items-derived asset URLs. -/
theorem C9_items_failure_nonfatal (inp : FetchInputs)
    (hfail : ∀ id, inp.itemsFetch id = none) :
    (getAggregatedSnapshot inp).items = List.replicate 7 none ∧
    (getAggregatedSnapshot inp).error = false ∧
    (getAggregatedSnapshot inp).objectives =
      computeObjectiveTimers inp.gameStats.gameTime inp.events ∧
    (∀ g : String → Option ItemsFetchResult,
        (getAggregatedSnapshot { inp with itemsFetch := g }).game =
          (getAggregatedSnapshot inp).game ∧
        (getAggregatedSnapshot { inp with itemsFetch := g }).player =
          (getAggregatedSnapshot inp).player ∧
        (getAggregatedSnapshot { inp with itemsFetch := g }).runes =
          (getAggregatedSnapshot inp).runes ∧
        (getAggregatedSnapshot { inp with itemsFetch := g }).stats =
          (getAggregatedSnapshot inp).stats ∧
        (getAggregatedSnapshot { inp with itemsFetch := g }).derived =
          (getAggregatedSnapshot inp).derived ∧
        (getAggregatedSnapshot { inp with itemsFetch := g }).team =
          (getAggregatedSnapshot inp).team ∧
        (getAggregatedSnapshot { inp with itemsFetch := g }).spells =
          (getAggregatedSnapshot inp).spells ∧
        (getAggregatedSnapshot { inp with itemsFetch := g }).abilities =
          (getAggregatedSnapshot inp).abilities ∧
        (getAggregatedSnapshot { inp with itemsFetch := g }).objectives =
          (getAggregatedSnapshot inp).objectives ∧
        (getAggregatedSnapshot { inp with itemsFetch := g }).error =
          (getAggregatedSnapshot inp).error ∧
        (getAggregatedSnapshot { inp with itemsFetch := g }).message =
          (getAggregatedSnapshot inp).message ∧
        (getAggregatedSnapshot { inp with itemsFetch := g }).raw =
          (getAggregatedSnapshot inp).raw) := by
  refine ⟨?_, rfl, rfl, ?_⟩
  · show buildItemsBySlot
      (some (normalizeItems
        (fetchWithRiotIdFallback inp.itemsFetch
          (riotIdCandidates inp.activePlayerName
            (resolveMe inp.activePlayerName (inp.playersRaw.getD [])))).1))
      = List.replicate 7 none
    rw [fetchWithRiotIdFallback_none inp.itemsFetch hfail]
    rfl
  · intro g
    exact ⟨rfl, rfl, rfl, rfl, rfl, rfl, rfl, rfl, rfl, rfl, rfl, rfl⟩

/-- Witness instantiating C9 at concrete inputs: all-null 7-slot equipment
list and a false error flag. -/
theorem C9_items_failure_nonfatal_witness :
    (getAggregatedSnapshot c9Inp).items = List.replicate 7 none ∧
    (getAggregatedSnapshot c9Inp).error = false :=
  ⟨(C9_items_failure_nonfatal c9Inp (fun _ => rfl)).1,
   (C9_items_failure_nonfatal c9Inp (fun _ => rfl)).2.1⟩
